import Mathlib

/-!
Verification of the telecom root-cause diagnosis pipeline.

The development shallowly embeds the Python sources of the repository
(src/data_parser.py, src/rule_engine.py, src/ai_client.py,
src/case_library.py, src/solver.py).  Strings are modelled as lists of
characters (`Str`); Python floats are modelled as rationals; Python
dicts are modelled as association lists; Python sets are modelled as
deduplicated lists (all downstream consumers either sort them or treat
them as sets, so iteration order is irrelevant).  Network and file
system effects are abstracted: the oracle HTTP endpoint becomes an
explicit function argument, and the checkpoint file becomes an explicit
state value threaded through the run.  Printing, logging and the
case-library side channel (which only feeds a statistics field that no
output depends on) are omitted.
-/

/-- Strings, modelled as lists of characters. -/
abbrev Str := List Char

namespace Telco

/-! ## Basic Python string primitives -/

/-- Python `str.split(sep)` for a one-character separator. -/
def splitOnChar (sep : Char) : Str → List Str
  | [] => [[]]
  | c :: rest =>
    let r := splitOnChar sep rest
    if c = sep then [] :: r
    else (c :: r.headD []) :: r.tail

/-- Python whitespace for `str.strip()`. -/
def pySpace (c : Char) : Bool :=
  c = ' ' || c = '\t' || c = '\n' || c = '\r' || c = Char.ofNat 11 || c = Char.ofNat 12

/-- Python `str.strip()`. -/
def pyStrip (s : Str) : Str :=
  ((s.dropWhile pySpace).reverse.dropWhile pySpace).reverse

/-- Python lowercase conversion (ASCII, which covers all inputs used). -/
def pyLower (s : Str) : Str := s.map Char.toLower

/-- Python substring test `pat in s` (case sensitive). -/
def containsSub (pat s : Str) : Bool :=
  s.tails.any (fun t => pat.isPrefixOf t)

/-- Decimal digit string to natural number. -/
def digitsVal (ds : Str) : Nat :=
  ds.foldl (fun a c => a * 10 + (c.toNat - 48)) 0

/-- Python `float(s)` restricted to optionally signed decimal literals,
the only shape occurring in the telemetry tables; anything else fails
like Python raises `ValueError`. -/
def pyFloat (s : Str) : Option ℚ :=
  let t := pyStrip s
  let (neg, t) :=
    match t with
    | '-' :: r => (true, r)
    | '+' :: r => (false, r)
    | _ => (false, t)
  let intDs := t.takeWhile Char.isDigit
  let rest := t.dropWhile Char.isDigit
  let val? : Option ℚ :=
    match rest with
    | [] => if intDs = [] then none else some (digitsVal intDs)
    | '.' :: fr =>
      let frDs := fr.takeWhile Char.isDigit
      let rest2 := fr.dropWhile Char.isDigit
      if rest2 = [] && !(intDs = [] && frDs = []) then
        some ((digitsVal intDs : ℚ) + (digitsVal frDs : ℚ) / (10 : ℚ) ^ frDs.length)
      else none
    | _ => none
  val?.map (fun v => if neg then -v else v)

/-- Python `int(s)`: optionally signed decimal integer. -/
def pyInt (s : Str) : Option Int :=
  let t := pyStrip s
  let (neg, t) :=
    match t with
    | '-' :: r => (true, r)
    | '+' :: r => (false, r)
    | _ => (false, t)
  if t ≠ [] && t.all Char.isDigit then
    some (if neg then -(digitsVal t : Int) else (digitsVal t : Int))
  else none

/-- Deduplication keeping the first occurrence, as the Python
`seen`-set loops in `extract_options_from_question` do. -/
def pyDedupGo (seen : List Str) : List Str → List Str
  | [] => []
  | x :: xs => if x ∈ seen then pyDedupGo seen xs else x :: pyDedupGo (x :: seen) xs

/-- Deduplication keeping the first occurrence. -/
def pyDedup (l : List Str) : List Str := pyDedupGo [] l

/-- Lexicographic comparison of strings by code point, as Python
compares strings. -/
def lexLe : Str → Str → Bool
  | [], _ => true
  | _ :: _, [] => false
  | a :: as, b :: bs => if a < b then true else if a = b then lexLe as bs else false

/-- Insert into a sorted list. -/
def insSorted (x : Str) : List Str → List Str
  | [] => [x]
  | y :: ys => if lexLe x y then x :: y :: ys else y :: insSorted x ys

/-- Insertion sort; on duplicate-free inputs it computes exactly
Python `sorted(...)`. -/
def sortStr (l : List Str) : List Str := l.foldr insSorted []

/-- Python `sorted(set(l))`. -/
def sortedDedup (l : List Str) : List Str := sortStr (pyDedup l)

/-! ## data_parser.py: option extraction -/

/-- Match of `^([A-Z])(\d+)\s*:` on a stripped line
(`extract_options_from_question`, prefixed options); returns the
concatenated capture groups. -/
def matchPrefixOption (line : Str) : Option Str :=
  match pyStrip line with
  | [] => none
  | c :: rest =>
    if 'A' ≤ c && c ≤ 'Z' then
      let ds := rest.takeWhile Char.isDigit
      let r2 := rest.dropWhile Char.isDigit
      match ds, r2.dropWhile pySpace with
      | _ :: _, ':' :: _ => some (c :: ds)
      | _, _ => none
    else none

/-- Match of `^(\d+)\s*:` on a stripped line (numeric options). -/
def matchNumOption (line : Str) : Option Str :=
  let t := pyStrip line
  let ds := t.takeWhile Char.isDigit
  let r2 := t.dropWhile Char.isDigit
  match ds, r2.dropWhile pySpace with
  | _ :: _, ':' :: _ => some ds
  | _, _ => none

/-- Match of `^([A-I])\s*:` on a stripped line (letter options). -/
def matchLetterOption (line : Str) : Option Str :=
  match pyStrip line with
  | [] => none
  | c :: rest =>
    if 'A' ≤ c && c ≤ 'I' then
      match rest.dropWhile pySpace with
      | ':' :: _ => some [c]
      | _ => none
    else none

/-- The fixed fallback option list of `extract_options_from_question`. -/
def defaultOptionList : List Str :=
  [['1'], ['2'], ['3'], ['4'], ['5'], ['6'], ['7'], ['8']]

/-- `data_parser.extract_options_from_question`: prefixed options if
any line has one, else numeric options, else sorted deduplicated letter
options, else the fixed default list. -/
def extract_options_from_question (q : Str) : List Str :=
  let lines := splitOnChar '\n' q
  let prefOpts := lines.filterMap matchPrefixOption
  if prefOpts ≠ [] then pyDedup prefOpts
  else
    let numOpts := lines.filterMap matchNumOption
    if numOpts ≠ [] then pyDedup numOpts
    else
      let letterOpts := lines.filterMap matchLetterOption
      if letterOpts ≠ [] then sortedDedup letterOpts
      else defaultOptionList

/-! ## data_parser.py / prompts.py: option to cause mapping -/

/-- Association-list update with Python dict assignment semantics:
replace the binding if the key is present, append otherwise. -/
def upsertKV {α β : Type} [DecidableEq α] (m : List (α × β)) (k : α) (v : β) :
    List (α × β) :=
  if m.any (fun p => p.1 == k) then m.map (fun p => if p.1 = k then (k, v) else p)
  else m ++ [(k, v)]

/-- Candidate captures of the regex group `([A-Z]?\d+|[A-I])` at the
start of a string, in backtracking preference order, each paired with
the remaining input. -/
def optIdCandidates (t : Str) : List (Str × Str) :=
  match t with
  | [] => []
  | c :: rest =>
    (if 'A' ≤ c && c ≤ 'Z' then
       let ds := rest.takeWhile Char.isDigit
       if ds ≠ [] then [(c :: ds, rest.dropWhile Char.isDigit)] else []
     else []) ++
    (let ds := t.takeWhile Char.isDigit
     if ds ≠ [] then [(ds, t.dropWhile Char.isDigit)] else []) ++
    (if 'A' ≤ c && c ≤ 'I' then [([c], rest)] else [])

/-- Match of `^([A-Z]?\d+|[A-I])\s*:\s*(.+)$` against a stripped line,
returning (option id, description).  Lines are pre-stripped, so the
greedy `\s*` before the description capture cannot need backtracking. -/
def matchMappingLine (line : Str) : Option (Str × Str) :=
  let t := pyStrip line
  (optIdCandidates t).findSome? (fun p =>
    match p.2.dropWhile pySpace with
    | ':' :: r2 =>
      match r2.dropWhile pySpace with
      | [] => none
      | d => some (p.1, d)
    | _ => none)

/-- prompts.ROOT_CAUSE_KEYWORDS. -/
def ROOT_CAUSE_KEYWORDS : List (Str × List Str) :=
  [("neighbor_higher".data, ["neighboring cell provides higher throughput".data, "neighbor cell provides higher".data]),
   ("overshoot".data, ["coverage distance exceeds 1km".data, "over-shooting".data, "overshooting".data]),
   ("overlap".data, ["overlapping coverage".data, "severe overlapping".data]),
   ("pci_conflict".data, ["PCI mod 30".data, "same PCI mod".data]),
   ("low_rb".data, ["RBs are below 160".data, "scheduled RBs are below".data, "Average scheduled RBs".data]),
   ("weak_coverage".data, ["downtilt angle is too large".data, "weak coverage at the far end".data]),
   ("high_speed".data, ["speed exceeds 40km/h".data, "Test vehicle speed exceeds".data]),
   ("handover".data, ["Frequent handovers".data, "handovers degrade".data])]

/-- prompts.NONSTANDARD_KEYWORDS. -/
def NONSTANDARD_KEYWORDS : List (Str × List Str) :=
  [("overlap".data, ["severe overlap".data, "overlapping coverage".data, "RF or power parameters cause severe overlap".data]),
   ("overlap_rf".data, ["severe overlapping coverage".data, "RF or power parameters cause severe overlapping".data]),
   ("inter_freq_threshold".data, ["inter-frequency handover threshold".data, "Inter-frequency handover".data]),
   ("capacity".data, ["capacity".data, "load imbalance".data, "network capacity".data]),
   ("transport_anomaly".data, ["transport anomaly".data, "transmission abnormality".data, "upstream traffic".data, "Test server or transport".data]),
   ("uplink_issue".data, ["uplink traffic".data, "transmission abnormality".data]),
   ("neighbor_missing".data, ["neighbor configuration missing".data, "Missing neighbor".data, "neighbor cell configuration".data]),
   ("weak_coverage_rf".data, ["weak coverage".data, "RF, power parameters or site construction lead to weak coverage".data, "site construction cause weak".data]),
   ("threshold_high".data, ["intra-frequency handover threshold is too high".data, "threshold too high".data, "handover threshold too high".data]),
   ("threshold_low".data, ["intra-frequency handover threshold is too low".data, "threshold too low".data, "frequent handover".data, "handover threshold too low".data]),
   ("pdcch".data, ["PDCCH resource management parameters unreasonable".data, "PDCCH".data, "resource management".data, "CCE".data])]

/-- One line of `data_parser.extract_option_mapping`: for every cause
whose keyword list hits the lowercased description, bind the cause to
this option id (later lines overwrite earlier ones). -/
def mappingStep (m : List (Str × Str)) (line : Str) : List (Str × Str) :=
  match matchMappingLine line with
  | none => m
  | some (optId, desc) =>
    let descL := pyLower desc
    (ROOT_CAUSE_KEYWORDS ++ NONSTANDARD_KEYWORDS).foldl
      (fun acc ck =>
        if ck.2.any (fun kw => containsSub (pyLower kw) descL) then upsertKV acc ck.1 optId
        else acc) m

/-- data_parser.extract_option_mapping. -/
def extract_option_mapping (q : Str) : List (Str × Str) :=
  (splitOnChar '\n' q).foldl mappingStep []

/-- The CAUSE_KEYWORDS table local to
`data_parser.get_cause_to_option_reverse_map`. -/
def CAUSE_KEYWORDS : List (Str × List Str) :=
  [("C1".data, ["downtilt".data, "weak coverage".data, "far end".data]),
   ("C2".data, ["coverage distance exceeds".data, "over-shooting".data, "overshooting".data]),
   ("C3".data, ["neighboring cell provides higher".data]),
   ("C4".data, ["overlapping coverage".data, "overlapping".data]),
   ("C5".data, ["frequent handover".data, "handovers degrade".data]),
   ("C6".data, ["PCI mod 30".data]),
   ("C7".data, ["speed exceeds 40".data]),
   ("C8".data, ["RBs are below".data, "scheduled RBs".data])]

/-- data_parser.get_cause_to_option_reverse_map, first component
(cause code to option id; the second component is unused by the
solver). -/
def get_cause_to_option (q : Str) : List (Str × Str) :=
  (splitOnChar '\n' q).foldl
    (fun m line =>
      match matchMappingLine line with
      | none => m
      | some (optId, desc) =>
        let descL := pyLower desc
        CAUSE_KEYWORDS.foldl
          (fun acc ck =>
            if ck.2.any (fun kw => containsSub (pyLower kw) descL) then upsertKV acc ck.1 optId
            else acc) m)
    []

/-! ## data_parser.py: question typing -/

/-- data_parser.is_standard_question. -/
def is_standard_question (q : Str) : Bool :=
  containsSub ("Timestamp|Longitude|Latitude|GPS Speed".data) q

/-- data_parser.is_nonstandard_telecom_question. -/
def is_nonstandard_telecom_question (q : Str) : Bool :=
  (containsSub ("Drive Test Data".data) q ||
   containsSub ("Serving RSRP".data) q ||
   containsSub ("Throughput".data) q ||
   containsSub ("Parameter Data".data) q) &&
  !is_standard_question q

/-- Question category of data_parser.get_question_type. -/
inductive QType
  | standard
  | nonstandardTelecom
  | nonstandardOther
deriving DecidableEq, Repr

/-- data_parser.get_question_type. -/
def get_question_type (q : Str) : QType :=
  if is_standard_question q then .standard
  else if is_nonstandard_telecom_question q then .nonstandardTelecom
  else .nonstandardOther

/-! ## data_parser.py: telemetry table parsing and feature extraction -/

/-- A parsed table row: the header/value pairs produced by
`dict(zip(headers, parts))`. -/
abbrev Rec := List (Str × Str)

/-- Python `dict(zip(ks, vs)).get(k)`: with duplicate keys the last
binding wins, hence the reversed lookup. -/
def dget (r : Rec) (k : Str) : Option Str :=
  r.reverse.lookup k

/-- Last line (with index) containing the given header signature; the
Python scan overwrites its header variable, so the last hit wins. -/
def findHeaderLine (sig : Str) (lines : List Str) : Option (Nat × Str) :=
  ((List.range lines.length).zip lines).filter
      (fun p => containsSub sig p.2) |>.getLast?

/-- Data rows under a table header: scan stops at the first line
failing `keep`; rows whose column count differs from the header are
skipped without stopping the scan. -/
def tableRows (headers : List Str) (rest : List Str) (keep : Str → Bool) : List Rec :=
  (rest.takeWhile keep).filterMap
    (fun l =>
      let parts := splitOnChar '|' l
      if parts.length = headers.length then some (headers.zip (parts.map pyStrip))
      else none)

/-- data_parser.parse_drive_test_data: locate the drive-test header and
the engineering-parameters header, then collect the rows under each. -/
def parse_drive_test_data (q : Str) : List Rec × List Rec :=
  let lines := splitOnChar '\n' q
  let dtRecords :=
    match findHeaderLine ("Timestamp|Longitude|Latitude|GPS Speed".data) lines with
    | none => []
    | some (i, headerLine) =>
      let headers := (splitOnChar '|' headerLine).map pyStrip
      tableRows headers (lines.drop (i + 1))
        (fun l => containsSub ['|'] l &&
                  !(("gNodeB".data).isPrefixOf (pyStrip l)) &&
                  !containsSub ("Engineering".data) l)
  let engRecords :=
    match findHeaderLine ("gNodeB ID|Cell ID|Longitude|Latitude".data) lines with
    | none => []
    | some (i, headerLine) =>
      let headers := (splitOnChar '|' headerLine).map pyStrip
      tableRows headers (lines.drop (i + 1)) (fun l => containsSub ['|'] l)
  (dtRecords, engRecords)

/-- Minimum of a rational list with a default for the empty case. -/
def minD (l : List ℚ) (d : ℚ) : ℚ :=
  match l with
  | [] => d
  | x :: xs => xs.foldl min x

/-- Maximum of a rational list with a default for the empty case. -/
def maxD (l : List ℚ) (d : ℚ) : ℚ :=
  match l with
  | [] => d
  | x :: xs => xs.foldl max x

/-- Sum of a rational list. -/
def sumQ (l : List ℚ) : ℚ := l.foldl (· + ·) 0

/-- Mean of a rational list with a default for the empty case. -/
def avgD (l : List ℚ) (d : ℚ) : ℚ :=
  match l with
  | [] => d
  | _ => sumQ l / l.length

/-- Set insertion for integer lists (insertion order, no duplicates). -/
def addSetI (l : List Int) (x : Int) : List Int :=
  if x ∈ l then l else l ++ [x]

/-- The Features dictionary produced by data_parser.extract_features.
Every key is always present there (missing telemetry is replaced by
fixed defaults, which claim C4 is about), so all fields are total. -/
structure Features where
  min_rsrp : ℚ
  avg_rsrp : ℚ
  max_tilt : ℚ
  min_tilt : ℚ
  total_tilt : ℚ
  handovers : Nat
  num_neighbors : Nat
  max_speed : ℚ
  avg_rb : ℚ
  has_pci_conflict : Bool
deriving DecidableEq, Repr

/-- Per-record scan state of extract_features. -/
structure FeatScan where
  speeds : List ℚ
  serving : List Int
  neighbors : List Int
  rbs : List ℚ
  rsrps : List ℚ
  prev : Option Int
  handovers : Nat

/-- First try block of the extract_features record loop: GPS speed,
read with a `dict.get` default (the string image of the Python int
default); a parse failure skips just this field. -/
def featStepSpeed (st : FeatScan) (r : Rec) : FeatScan :=
  match pyFloat ((dget r ("GPS Speed (km/h)".data)).getD ("0".data)) with
  | some v => { st with speeds := st.speeds ++ [v] }
  | none => st

/-- Second try block: serving PCI and the handover counter, which
increments exactly when the serving cell changes between consecutive
parsed rows. -/
def featStepPci (st : FeatScan) (r : Rec) : FeatScan :=
  match pyInt ((dget r ("5G KPI PCell RF Serving PCI".data)).getD ("-1".data)) with
  | some pci =>
    { st with
      serving := st.serving ++ [pci]
      handovers :=
        match st.prev with
        | some p => if p ≠ pci then st.handovers + 1 else st.handovers
        | none => st.handovers
      prev := some pci }
  | none => st

/-- Third try block: top-1 neighbor PCI set. -/
def featStepNeighbor (st : FeatScan) (r : Rec) : FeatScan :=
  let n1 := (dget r ("Measurement PCell Neighbor Cell Top Set(Cell Level) Top 1 PCI".data)).getD ("-".data)
  if n1 ≠ [] && n1 ≠ "-".data then
    match pyInt n1 with
    | some v => { st with neighbors := addSetI st.neighbors v }
    | none => st
  else st

/-- Fourth try block: scheduled RB numbers. -/
def featStepRb (st : FeatScan) (r : Rec) : FeatScan :=
  match pyFloat ((dget r ("5G KPI PCell Layer1 DL RB Num (Including 0)".data)).getD ("200".data)) with
  | some v => { st with rbs := st.rbs ++ [v] }
  | none => st

/-- Fifth try block: serving RSRP values. -/
def featStepRsrp (st : FeatScan) (r : Rec) : FeatScan :=
  match pyFloat ((dget r ("5G KPI PCell RF Serving SS-RSRP [dBm]".data)).getD ("-80".data)) with
  | some v => { st with rsrps := st.rsrps ++ [v] }
  | none => st

/-- One drive-test record of the extract_features scan: the five
independent try blocks in source order. -/
def featStep (st : FeatScan) (r : Rec) : FeatScan :=
  featStepRsrp (featStepRb (featStepNeighbor (featStepPci (featStepSpeed st r) r) r) r) r

/-- Per-cell tilt of extract_features: mechanical plus digital tilt,
with the sentinel digital tilt 255 mapped to the constant 6; a parse
failure in either component drops the cell. -/
def tiltOf (e : Rec) : Option ℚ :=
  match pyFloat ((dget e ("Mechanical Downtilt".data)).getD ("0".data)) with
  | none => none
  | some md =>
    let dtv := (dget e ("Digital Tilt".data)).getD ("0".data)
    let digital := if dtv = "255".data then some (6 : ℚ) else pyFloat dtv
    digital.map (fun d => md + d)

/-- data_parser.extract_features. -/
def extract_features (q : Str) : Option Features :=
  let dtRecords := (parse_drive_test_data q).1
  let engRecords := (parse_drive_test_data q).2
  if dtRecords = [] then none
  else
    let pciToEng : List (Int × Rec) :=
      engRecords.foldl
        (fun m e =>
          match pyInt ((dget e ("PCI".data)).getD ("-1".data)) with
          | some pci => upsertKV m pci e
          | none => m) []
    let st := dtRecords.foldl featStep ⟨[], [], [], [], [], none, 0⟩
    let servingSet := st.serving.foldl addSetI []
    let tilts := servingSet.filterMap (fun pci => (pciToEng.lookup pci).bind tiltOf)
    let allPcis := st.neighbors.foldl addSetI servingSet
    let mods := allPcis.map (fun p => p % 30)
    let conflict := (mods.foldl addSetI []).length ≠ mods.length
    some
      { min_rsrp := minD st.rsrps (-999)
        avg_rsrp := avgD st.rsrps (-999)
        max_tilt := maxD tilts 0
        min_tilt := minD tilts 999
        total_tilt := sumQ tilts
        handovers := st.handovers
        num_neighbors := st.neighbors.length
        max_speed := maxD st.speeds 0
        avg_rb := avgD st.rbs 999
        has_pci_conflict := conflict }

/-! ## rule_engine.py -/

/-- Confidence tier. -/
inductive Conf
  | high
  | low
deriving DecidableEq, Repr

/-- The answer lookup at the tail of
rule_engine.solve_standard_question_with_confidence (lines 111-131):
direct mapping hit, else the overlap / neighbor_higher backups, else
the third listed option, else the literal 3. -/
def getStdAnswer (cause : Str) (m : List (Str × Str)) (defaults : List Str) : Str :=
  match m.lookup cause with
  | some a => a
  | none =>
    let backups : List Str :=
      if cause = "neighbor_higher".data then ["overlap".data, "neighbor_higher".data]
      else if cause = "overlap".data then ["neighbor_higher".data, "overlap".data]
      else []
    match backups.findSome? (fun b => m.lookup b) with
    | some a => a
    | none =>
      if defaults ≠ [] then (defaults.getD (min 2 (defaults.length - 1)) ("3".data))
      else "3".data

/-- Result of the standard rule cascade.  The Python rationale string
interpolates feature values for humans; no behaviour depends on it, so
it is represented by the index of the fired rule (0 for the no-features
default). -/
structure StdRes where
  answer : Str
  conf : Conf
  cause : Str
  rule : Nat
deriving DecidableEq, Repr

/-- rule_engine.solve_standard_question_with_confidence.  A produced
Features dict is never empty, so Python `if features:` is exactly the
`Option` match. -/
def solve_standard (features : Option Features) (m : List (Str × Str))
    (defaults : List Str) : StdRes :=
  let c : Str × Conf × Nat :=
    match features with
    | none => ("neighbor_higher".data, Conf.low, 0)
    | some f =>
      if f.num_neighbors ≥ 3 then ("overlap".data, Conf.high, 1)
      else if f.handovers ≥ 3 then ("handover".data, Conf.high, 2)
      else if f.handovers = 2 then ("overshoot".data, Conf.high, 3)
      else if f.max_speed > 40 then ("high_speed".data, Conf.high, 4)
      else if f.avg_rb < 170 then ("low_rb".data, Conf.high, 5)
      else if f.has_pci_conflict then ("pci_conflict".data, Conf.high, 6)
      else if f.max_tilt < 12 then ("neighbor_higher".data, Conf.high, 7)
      else if f.total_tilt < 19 then ("neighbor_higher".data, Conf.high, 8)
      else if f.min_tilt < 6 then ("neighbor_higher".data, Conf.high, 9)
      else if f.min_tilt < 10 && f.min_rsrp > -89 then ("neighbor_higher".data, Conf.high, 10)
      else if f.min_rsrp < -90 then ("weak_coverage".data, Conf.high, 11)
      else if f.max_tilt > 29 then ("weak_coverage".data, Conf.high, 12)
      else if f.total_tilt > 52 then ("weak_coverage".data, Conf.high, 13)
      else if f.min_tilt > 25 then ("weak_coverage".data, Conf.high, 14)
      else if f.min_rsrp < (-88.5 : ℚ) && f.total_tilt > 39 && f.max_tilt ≥ 22 then
        ("weak_coverage".data, Conf.low, 15)
      else if f.min_tilt < 10 || f.total_tilt ≤ 35 then ("neighbor_higher".data, Conf.low, 16)
      else ("neighbor_higher".data, Conf.low, 17)
  ⟨getStdAnswer c.1 m defaults, c.2.1, c.1, c.2.2⟩

/-- Numeric features computed by
rule_engine.solve_nonstandard_telecom_with_confidence. -/
structure NtFeatures where
  min_rsrp : ℚ
  mean_sinr : ℚ
  max_cce : ℚ
  handovers : Nat
deriving DecidableEq, Repr

/-- Result of the nonstandard-telecom solver.  `excluded` is the
excluded_options set, modelled as a duplicate-free list (the solver
sorts it before use). -/
structure NtRes where
  answer : Str
  conf : Conf
  cause : Str
  excluded : List Str
  feats : NtFeatures
  rule : Nat
deriving DecidableEq, Repr

/-- The loosely headed table scan of
solve_nonstandard_telecom_with_confidence (lines 148-159): a header is
the first pipe line with more than 3 non-empty cells and a Time/UE
marker; subsequent pipe lines with at least `len(header) - 2` cells
become rows. -/
def looseRows (q : Str) : List Rec :=
  let step := fun (st : Option (List Str) × List Rec) (line : Str) =>
    if containsSub ['|'] line && !(("|:".data).isPrefixOf (pyStrip line)) then
      let parts := ((splitOnChar '|' line).map pyStrip).filter (fun p => p ≠ [])
      match st.1 with
      | none =>
        if parts.length > 3 then
          if containsSub ("Time".data) line || containsSub ("Timestamp".data) line ||
             containsSub ("UE".data) line then
            (some parts, st.2)
          else st
        else st
      | some h =>
        if parts.length ≥ h.length - 2 then (st.1, st.2 ++ [h.zip parts]) else st
    else st
  ((splitOnChar '\n' q).foldl step (none, [])).2

/-- First present column among a priority list, then parse; a parse
failure aborts the whole lookup (the Python try wraps the loop). -/
def colFloat (r : Rec) (cols : List Str) : Option ℚ :=
  (cols.findSome? (fun c => dget r c)).bind pyFloat

/-- Integer variant of `colFloat`. -/
def colInt (r : Rec) (cols : List Str) : Option Int :=
  (cols.findSome? (fun c => dget r c)).bind pyInt

/-- The answer lookup at the tail of
solve_nonstandard_telecom_with_confidence (lines 267-278). -/
def getNtAnswer (cause : Str) (m : List (Str × Str)) (defaults : List Str) : Str :=
  match m.lookup cause with
  | some a => a
  | none =>
    match m.lookup ("weak_coverage_rf".data) with
    | some a => a
    | none =>
      if defaults ≠ [] then (defaults.getD (min 5 (defaults.length - 1)) ("F".data))
      else "F".data

/-- rule_engine.solve_nonstandard_telecom_with_confidence. -/
def solve_nonstandard (q : Str) (m : List (Str × Str)) (defaults : List Str) : NtRes :=
  let rows := looseRows q
  let rsrps := rows.filterMap (fun r => colFloat r ["Serving RSRP(dBm)".data, "RSRP".data, "Serving RSRP".data])
  let sinrs := rows.filterMap (fun r => colFloat r ["Serving SINR(dB)".data, "SINR".data, "Serving SINR".data])
  let cces := rows.filterMap (fun r => colFloat r ["CCE Fail Rate".data, "CCE".data])
  let pcis := rows.filterMap (fun r => colInt r ["Serving PCI".data, "PCI".data])
  let handovers :=
    (pcis.foldl
      (fun (st : Option Int × Nat) pci =>
        match st.1 with
        | some p => (some pci, if p ≠ pci then st.2 + 1 else st.2)
        | none => (some pci, st.2)) (none, 0)).2
  let minRsrp := minD rsrps (-100)
  let meanSinr := avgD sinrs 0
  let maxCce := maxD cces 0
  let feats : NtFeatures := ⟨minRsrp, meanSinr, maxCce, handovers⟩
  if minRsrp < -100 then
    ⟨getNtAnswer ("weak_coverage_rf".data) m defaults, Conf.high, "weak_coverage_rf".data, [], feats, 1⟩
  else if handovers ≥ 3 then
    ⟨getNtAnswer ("threshold_low".data) m defaults, Conf.high, "threshold_low".data, [], feats, 2⟩
  else if maxCce > (0.4 : ℚ) then
    ⟨getNtAnswer ("pdcch".data) m defaults, Conf.high, "pdcch".data, [], feats, 3⟩
  else
    let excludedCauses :=
      ["weak_coverage_rf".data, "threshold_low".data, "pdcch".data] ++
      (if handovers > 0 then ["neighbor_missing".data] else []) ++
      (if meanSinr > 12 then ["overlap".data, "overlap_rf".data] else []) ++
      (if meanSinr > 8 then ["transport_anomaly".data, "uplink_issue".data] else [])
    let excludedOptions := pyDedup (excludedCauses.filterMap (fun c => m.lookup c))
    ⟨getNtAnswer ("weak_coverage_rf".data) m defaults, Conf.low, "weak_coverage_rf".data,
      excludedOptions, feats, 0⟩

/-! ## ai_client.py -/

/-- Case-insensitive literal match at the head of a string, returning
the remainder (models `re.IGNORECASE` literal parts). -/
def ciPrefixRest : Str → Str → Option Str
  | [], s => some s
  | _, [] => none
  | p :: ps, c :: cs => if p.toLower = c.toLower then ciPrefixRest ps cs else none

/-- ASCII letter test. -/
def isAsciiAlpha (c : Char) : Bool :=
  ('A' ≤ c && c ≤ 'Z') || ('a' ≤ c && c ≤ 'z')

/-- Letter in A..I, either case (`[A-I]` under `re.IGNORECASE`). -/
def isAItoI (c : Char) : Bool :=
  ('A' ≤ c && c ≤ 'I') || ('a' ≤ c && c ≤ 'i')

/-- `re.search`: try the position matcher at every start position,
leftmost hit wins. -/
def searchPat (f : Str → Option Str) (s : Str) : Option Str :=
  s.tails.findSome? f

/-- Position matcher for the boxed patterns `...boxed\{([^}]+)\}`:
after the literal, capture the non-empty run up to the closing brace. -/
def boxedCap (lit : Str) (t : Str) : Option Str :=
  match ciPrefixRest lit t with
  | none => none
  | some rest =>
    match rest.takeWhile (fun c => c ≠ '}'), rest.dropWhile (fun c => c ≠ '}') with
    | cap@(_ :: _), '}' :: _ => some cap
    | _, _ => none

/-- The group `([A-Z]?\d+|[A-I])` under `re.IGNORECASE` at the head of
a string, with the backtracking preference of the Python alternation:
letter-plus-digits, else digits, else a single A-I letter. -/
def optIdTokenCI (t : Str) : Option Str :=
  match t with
  | [] => none
  | c :: rest =>
    if isAsciiAlpha c && rest.takeWhile Char.isDigit ≠ [] then
      some (c :: rest.takeWhile Char.isDigit)
    else if t.takeWhile Char.isDigit ≠ [] then some (t.takeWhile Char.isDigit)
    else if isAItoI c then some [c]
    else none

/-- Position matcher for the `<literal>[:\s]*(<id>)` patterns; `single`
selects the `([A-I])` capture used by the Answer/Option patterns. -/
def litThenId (lit : Str) (single : Bool) (t : Str) : Option Str :=
  match ciPrefixRest lit t with
  | none => none
  | some rest =>
    let r2 := rest.dropWhile (fun c => c = ':' || pySpace c)
    if single then
      match r2 with
      | c :: _ => if isAItoI c then some [c] else none
      | [] => none
    else optIdTokenCI r2

/-- The prioritized pattern ladder of ai_client.extract_ai_answer. -/
def aiPatterns : List (Str → Option Str) :=
  [searchPat (boxedCap ("\\boxed\x7b".data)),
   searchPat (boxedCap ("boxed\x7b".data)),
   searchPat (litThenId ("Final Answer".data) false),
   searchPat (litThenId ("The answer is".data) false),
   searchPat (litThenId ("Answer".data) true),
   searchPat (litThenId ("Option".data) true)]

/-- Word character for `\b` (ASCII, which covers the option ids). -/
def isWordChar (c : Char) : Bool := isAsciiAlpha c || c.isDigit || c = '_'

/-- Word boundary between two neighbouring characters. -/
def boundAt (prev next : Option Char) : Bool :=
  (match prev with | some c => isWordChar c | none => false) ≠
  (match next with | some c => isWordChar c | none => false)

/-- Does `\b<o>\b` match at the head of `s` given the previous
character? -/
def wbCheck (o : Str) (prev : Option Char) (s : Str) : Bool :=
  o.isPrefixOf s &&
  boundAt prev ((if o = [] then s else o).head?) &&
  boundAt (if o = [] then prev else o.getLast?) (s.drop o.length).head?

/-- `re.search` of `\b<o>\b` over a string. -/
def wbGo (o : Str) (prev : Option Char) : Str → Bool
  | [] => wbCheck o prev []
  | c :: cs => wbCheck o prev (c :: cs) || wbGo o (some c) cs

/-- One rung of the pattern ladder: if the pattern matches, accept the
stripped capture when it is a valid option, else the first option in
mutual substring relation with it; otherwise fall through to the next
pattern. -/
def tryPattern (t : Str) (opts : List Str) (pat : Str → Option Str) : Option Str :=
  match pat t with
  | none => none
  | some ansRaw =>
    let ans := pyStrip ansRaw
    if ans ∈ opts then some ans
    else opts.find? (fun o => containsSub ans o || containsSub o ans)

/-- ai_client.extract_ai_answer: exact match, pattern ladder,
first-line option startswith, whole-text bounded-word search, then the
first valid option. -/
def extract_ai_answer (resp : Str) (opts : List Str) : Str :=
  if resp = [] then opts.headD ("1".data)
  else
    let t := pyStrip resp
    if t ∈ opts then t
    else
      match aiPatterns.findSome? (tryPattern t opts) with
      | some a => a
      | none =>
        let firstLine := pyStrip ((splitOnChar '\n' t).headD [])
        match opts.find? (fun o => o.isPrefixOf firstLine) with
        | some o => o
        | none =>
          match opts.find? (fun o => wbGo o none t) with
          | some o => o
          | none => opts.headD ("1".data)

/-- Outcome of one HTTP attempt in ai_client.call_ai_api: a parsed 200
response, or one of the retried failure classes (rate limit, 5xx,
other status, timeout, connection error, retryable or non-retryable
exception).  Every failure class sleeps and continues, so they are
behaviourally identical; they are kept separate to mirror the source. -/
inductive ApiOutcome
  | ok (content : Str)
  | rateLimit
  | serverError
  | httpOther
  | timeoutErr
  | connError
  | excRetryable
  | excOther
deriving DecidableEq, Repr

/-- The retry loop of call_ai_api: returns the first successful
content together with the number of HTTP calls made. -/
def callLoopAux (api : Nat → ApiOutcome) (attempt fuel : Nat) : Option Str × Nat :=
  match fuel with
  | 0 => (none, 0)
  | fuel' + 1 =>
    match api attempt with
    | .ok c => (some c, 1)
    | _ =>
      let r := callLoopAux api (attempt + 1) fuel'
      (r.1, r.2 + 1)

/-- ai_client.call_ai_api (max_retries defaults to 5 at every call
site); the network is abstracted into the per-attempt outcome
function. -/
def call_ai_api (api : Nat → ApiOutcome) (maxRetries : Nat) : Option Str × Nat :=
  callLoopAux api 0 maxRetries

/-- An escalation task as built by Solver.run. -/
structure AiTask where
  qid : Str
  question : Str
  options : List Str
  rule_answer : Str
deriving DecidableEq, Repr

/-- Result dictionary of ai_client.process_ai_task. -/
structure AiResult where
  qid : Str
  ai_answer : Str
  ai_success : Bool
  rule_answer : Str
deriving DecidableEq, Repr

/-- ai_client.process_ai_task.  Success requires a non-empty response
body (`if success and response:`); on failure the rule answer is
substituted.  Prompt construction only shapes the request the abstract
oracle receives, so it is subsumed by `api`. -/
def process_ai_task (api : Nat → ApiOutcome) (task : AiTask) : AiResult :=
  match (call_ai_api api 5).1 with
  | some c =>
    if c ≠ [] then ⟨task.qid, extract_ai_answer c task.options, true, task.rule_answer⟩
    else ⟨task.qid, task.rule_answer, false, task.rule_answer⟩
  | none => ⟨task.qid, task.rule_answer, false, task.rule_answer⟩

/-! ## case_library.py: similarity -/

/-- A feature snapshot as produced by
data_parser.extract_case_features and consumed by
case_library.compute_similarity: every attribute may be absent. -/
structure Snapshot where
  min_rsrp : Option ℚ
  max_tilt : Option ℚ
  total_tilt : Option ℚ
  handovers : Option ℚ
  max_speed : Option ℚ
  avg_rb : Option ℚ
  num_neighbors : Option ℚ
deriving DecidableEq, Repr

/-- The (weight, normalizer, value, value) tuples walked by
compute_similarity, in the iteration order of its weights dict. -/
def simEntries (f1 f2 : Snapshot) : List (ℚ × ℚ × Option ℚ × Option ℚ) :=
  [(2, 30, f1.min_rsrp, f2.min_rsrp),
   (2, 20, f1.max_tilt, f2.max_tilt),
   (3 / 2, 50, f1.total_tilt, f2.total_tilt),
   (3 / 2, 5, f1.handovers, f2.handovers),
   (1, 50, f1.max_speed, f2.max_speed),
   (1, 100, f1.avg_rb, f2.avg_rb),
   (1, 5, f1.num_neighbors, f2.num_neighbors)]

/-- One attribute of compute_similarity: attributes absent on either
side contribute to neither the numerator nor the denominator. -/
def simStep (acc : ℚ × ℚ) (e : ℚ × ℚ × Option ℚ × Option ℚ) : ℚ × ℚ :=
  match e.2.2.1, e.2.2.2 with
  | some a, some b => (acc.1 + e.1 * max 0 (1 - |a - b| / e.2.1), acc.2 + e.1)
  | _, _ => acc

/-- Accumulated (similarity, total_weight) pair. -/
def simFold (l : List (ℚ × ℚ × Option ℚ × Option ℚ)) : ℚ × ℚ :=
  l.foldl simStep (0, 0)

/-- case_library.compute_similarity.  `none` stands for the Python
falsy inputs (`None` or the empty dict); a produced snapshot dict
always carries all seven keys and is never empty. -/
def compute_similarity (f1 f2 : Option Snapshot) : ℚ :=
  match f1, f2 with
  | some g1, some g2 =>
    let t := simFold (simEntries g1 g2)
    if t.2 > 0 then t.1 / t.2 else 0
  | _, _ => 0

/-! ## solver.py -/

/-- The cause_type to cause-code table inlined in Solver.run
(lines 136-144). -/
def causeCode (cause : Str) : Option Str :=
  if cause = "weak_coverage".data then some ("C1".data)
  else if cause = "overshoot".data then some ("C2".data)
  else if cause = "neighbor_higher".data then some ("C3".data)
  else if cause = "overlap".data then some ("C4".data)
  else if cause = "handover".data then some ("C5".data)
  else if cause = "pci_conflict".data then some ("C6".data)
  else if cause = "high_speed".data then some ("C7".data)
  else if cause = "low_rb".data then some ("C8".data)
  else none

/-- The answer re-resolution of Solver.run for standard questions with
a non-canonical option set (lines 146-158): take the computed
option of the category if present; otherwise fall back through the
C1/C3 availability cases; otherwise the first listed option. -/
def reResolveStd (cause : Str) (c2o : List (Str × Str)) (options : List Str) : Str :=
  match (causeCode cause).bind (fun code => c2o.lookup code) with
  | some a => a
  | none =>
    match c2o.lookup ("C1".data), c2o.lookup ("C3".data) with
    | some a, none => a
    | none, some b => b
    | some a, some b => if cause = "weak_coverage".data then a else b
    | none, none => options.headD ("1".data)

/-- Confidence tier as the string stored in phase2_data. -/
def confStr : Conf → Str
  | .high => "high".data
  | .low => "low".data

/-- The full option alphabet `ABCDEFGHI` used by Solver.run for the
nonstandard-telecom remaining options. -/
def alphaOptions : List Str :=
  [['A'], ['B'], ['C'], ['D'], ['E'], ['F'], ['G'], ['H'], ['I']]

/-- The per-question phase2_data entry of Solver.run. -/
structure CaseData where
  options : List Str
  qtype : QType
  needsAI : Bool
  ruleAnswer : Str
  confidence : Str
  causeType : Str
  excludedOpts : List Str
  remainingOpts : List Str
deriving DecidableEq, Repr

/-- The per-question rule stage of Solver.run (lines 114-228).  The
case-library lookup for non-telecom questions only fills a counter that
nothing downstream reads, so it is omitted.  `sorted(set(...) - ...)`
over the sorted distinct alphabet is the filter below. -/
def processCase (q : Str) : CaseData :=
  let options := extract_options_from_question q
  let m := extract_option_mapping q
  let qt := get_question_type q
  match qt with
  | .standard =>
    let features := extract_features q
    let res := solve_standard features m options
    let answer :=
      if options.length ≠ 8 then reResolveStd res.cause (get_cause_to_option q) options
      else res.answer
    ⟨options, qt, false, answer, confStr res.conf, res.cause, [], []⟩
  | .nonstandardTelecom =>
    let res := solve_nonstandard q m options
    ⟨options, qt, res.conf ≠ Conf.high, res.answer, confStr res.conf, res.cause,
      sortStr res.excluded, alphaOptions.filter (fun o => o ∉ res.excluded)⟩
  | .nonstandardOther =>
    ⟨options, qt, true, options.headD ("1".data), "none".data, [], [], options⟩

/-- A row of the input dataset (ID, question). -/
structure InRow where
  id : Str
  question : Str
deriving DecidableEq, Repr

/-- A row of accumulated_results / the submission file. -/
structure OutRow where
  id : Str
  combined : Str
  rule_based : Str
  ai_based : Str
deriving DecidableEq, Repr

/-- The checkpoint artifact (progress.json): processed ids, output
rows, and the oracle-answer cache.  Cached entries always carry
`success: True` in the source, so the cache maps a qid to its accepted
answer. -/
structure Progress where
  processed_ids : List Str
  results : List OutRow
  ai_results : List (Str × Str)
deriving DecidableEq, Repr

/-- rule_engine.format_answer. -/
def format_answer (a : Str) : Str :=
  ("Based on the provided data, the most likely root cause for throughput drop is: \\boxed\x7b".data)
    ++ a ++ ("\x7d".data)

/-- Rows whose id is not in the loaded processed set; only these are
ever examined by the rule stage of Solver.run. -/
def unprocessedRows (rows : List InRow) (processed : List Str) : List InRow :=
  rows.filter (fun r => r.id ∉ processed)

/-- The phase2_data dict of Solver.run. -/
def phase2Map (rows : List InRow) (processed : List Str) : List (Str × CaseData) :=
  (unprocessedRows rows processed).foldl
    (fun mp r => upsertKV mp r.id (processCase r.question)) []

/-- The ai_tasks list of Solver.run: escalation tasks for unprocessed
cases that need the oracle and are not already in the answer cache. -/
def buildAiTasks (rows : List InRow) (processed : List Str) (cache : List (Str × Str)) :
    List AiTask :=
  (unprocessedRows rows processed).filterMap (fun r =>
    let d := processCase r.question
    if d.needsAI && (cache.lookup r.id).isNone then
      some ⟨r.id, r.question,
            if d.remainingOpts ≠ [] then d.remainingOpts else d.options,
            d.ruleAnswer⟩
    else none)

/-- One dispatch round of the escalation orchestrator: run every task,
cache the accepted answers, collect the failures.  Concurrent
completion order is collapsed to task order; each qid occurs in at
most one live task per round and cache writes are last-write-wins, so
the resulting cache is order-independent. -/
def runRound (oracle : Str → Nat → Nat → ApiOutcome) (round : Nat)
    (tasks : List AiTask) (cache : List (Str × Str)) :
    List (Str × Str) × List AiTask :=
  tasks.foldl
    (fun acc t =>
      let res := process_ai_task (oracle t.qid round) t
      if res.ai_success then (upsertKV acc.1 t.qid res.ai_answer, acc.2)
      else (acc.1, acc.2 ++ [t]))
    (cache, [])

/-- The AI execution block of Solver.run: the initial concurrent pass
followed by up to three sequential retry rounds over the failures. -/
def aiPhase (oracle : Str → Nat → Nat → ApiOutcome) (tasks : List AiTask)
    (cache : List (Str × Str)) : List (Str × Str) :=
  if tasks = [] then cache
  else
    let r0 := runRound oracle 0 tasks cache
    let r1 := if r0.2 = [] then r0 else runRound oracle 1 r0.2 r0.1
    let r2 := if r1.2 = [] then r1 else runRound oracle 2 r1.2 r1.1
    let r3 := if r2.2 = [] then r2 else runRound oracle 3 r2.2 r2.1
    r3.1

/-- The four submission rows emitted per case (four sub-answer
slots). -/
def outRowsFor (qid : Str) (answer : Str) : List OutRow :=
  let fa := format_answer answer
  [⟨qid ++ "_1".data, fa, "placeholder".data, "placeholder".data⟩,
   ⟨qid ++ "_2".data, fa, "placeholder".data, "placeholder".data⟩,
   ⟨qid ++ "_3".data, fa, "placeholder".data, "placeholder".data⟩,
   ⟨qid ++ "_4".data, fa, "placeholder".data, "placeholder".data⟩]

/-- One iteration of the result-generation loop of Solver.run
(lines 336-372).  The processed set is consulted and extended live, so
a second occurrence of an id appends nothing.  A phase2 lookup miss is
unreachable for ids that pass the processed check; it conservatively
appends nothing. -/
def finalizeStep (mp : List (Str × CaseData)) (cache : List (Str × Str))
    (acc : List Str × List OutRow) (r : InRow) : List Str × List OutRow :=
  if r.id ∈ acc.1 then acc
  else
    match mp.lookup r.id with
    | none => acc
    | some d =>
      let answer :=
        if d.needsAI then
          match cache.lookup r.id with
          | some a => a
          | none => d.ruleAnswer
        else d.ruleAnswer
      (acc.1 ++ [r.id], acc.2 ++ outRowsFor r.id answer)

/-- The result-generation loop of Solver.run. -/
def finalize (mp : List (Str × CaseData)) (cache : List (Str × Str))
    (rows : List InRow) (acc : List Str × List OutRow) : List Str × List OutRow :=
  rows.foldl (finalizeStep mp cache) acc

/-- Solver.run over an input dataset, an abstract oracle
(qid, retry round, attempt within the round), and the loaded
checkpoint; returns the checkpoint saved at the end of the run.
Logging, statistics printing, the intermediate periodic saves (each a
prefix of the final state) and interruption are outside the
embedding. -/
def runSolver (rows : List InRow) (oracle : Str → Nat → Nat → ApiOutcome)
    (p : Progress) : Progress :=
  let mp := phase2Map rows p.processed_ids
  let tasks := buildAiTasks rows p.processed_ids p.ai_results
  let cache := aiPhase oracle tasks p.ai_results
  let fin := finalize mp cache rows (p.processed_ids, p.results)
  ⟨fin.1, fin.2, cache⟩

/-! ## Helper lemmas -/

theorem pyDedupGo_not_mem_seen (l : List Str) :
    ∀ (seen : List Str), ∀ x ∈ pyDedupGo seen l, x ∉ seen := by
  induction l with
  | nil => intro seen x hx; simp [pyDedupGo] at hx
  | cons a as ih =>
    intro seen x hx
    by_cases h : a ∈ seen
    · simp only [pyDedupGo, if_pos h] at hx
      exact ih seen x hx
    · simp only [pyDedupGo, if_neg h] at hx
      rcases List.mem_cons.mp hx with rfl | hx
      · exact h
      · have := ih (a :: seen) x hx
        intro hxs
        exact this (List.mem_cons_of_mem a hxs)

theorem pyDedupGo_nodup (l : List Str) : ∀ (seen : List Str), (pyDedupGo seen l).Nodup := by
  induction l with
  | nil => intro seen; simp [pyDedupGo]
  | cons a as ih =>
    intro seen
    by_cases h : a ∈ seen
    · simpa only [pyDedupGo, if_pos h] using ih seen
    · simp only [pyDedupGo, if_neg h]
      refine List.nodup_cons.mpr ⟨?_, ih (a :: seen)⟩
      intro hmem
      exact pyDedupGo_not_mem_seen as (a :: seen) a hmem (List.mem_cons_self a seen)

theorem pyDedup_nodup (l : List Str) : (pyDedup l).Nodup :=
  pyDedupGo_nodup l []

theorem pyDedup_ne_nil (l : List Str) (h : l ≠ []) : pyDedup l ≠ [] := by
  cases l with
  | nil => exact absurd rfl h
  | cons a as => simp [pyDedup, pyDedupGo]

theorem pyDedup_sub (l : List Str) : ∀ x ∈ pyDedup l, x ∈ l := by
  suffices h : ∀ (seen : List Str), ∀ x ∈ pyDedupGo seen l, x ∈ l by
    exact h []
  induction l with
  | nil => intro seen x hx; simp [pyDedupGo] at hx
  | cons a as ih =>
    intro seen x hx
    by_cases h : a ∈ seen
    · simp only [pyDedupGo, if_pos h] at hx
      exact List.mem_cons_of_mem a (ih seen x hx)
    · simp only [pyDedupGo, if_neg h] at hx
      rcases List.mem_cons.mp hx with rfl | hx
      · exact List.mem_cons_self x as
      · exact List.mem_cons_of_mem a (ih (a :: seen) x hx)

theorem insSorted_perm (x : Str) (l : List Str) : (insSorted x l).Perm (x :: l) := by
  induction l with
  | nil => simp [insSorted]
  | cons y ys ih =>
    by_cases h : lexLe x y
    · simp [insSorted, h]
    · simp only [insSorted]
      rw [if_neg h]
      exact (List.Perm.cons y ih).trans (List.Perm.swap x y ys)

theorem sortStr_perm (l : List Str) : (sortStr l).Perm l := by
  induction l with
  | nil => simp [sortStr]
  | cons x xs ih =>
    have : sortStr (x :: xs) = insSorted x (sortStr xs) := rfl
    rw [this]
    exact ((insSorted_perm x (sortStr xs)).trans (List.Perm.cons x ih))

theorem sortedDedup_nodup (l : List Str) : (sortedDedup l).Nodup :=
  ((sortStr_perm (pyDedup l)).nodup_iff).mpr (pyDedup_nodup l)

theorem sortedDedup_ne_nil (l : List Str) (h : l ≠ []) : sortedDedup l ≠ [] := by
  intro hnil
  unfold sortedDedup sortStr at hnil
  have hlen := (sortStr_perm (pyDedup l)).length_eq
  unfold sortStr at hlen
  rw [hnil] at hlen
  exact pyDedup_ne_nil l h (List.eq_nil_of_length_eq_zero hlen.symm)

theorem lookup_mem_values {α β : Type} [BEq α] (l : List (α × β)) (k : α) (v : β)
    (h : l.lookup k = some v) : v ∈ l.map Prod.snd := by
  induction l with
  | nil => simp [List.lookup] at h
  | cons p ps ih =>
    rw [List.lookup_cons] at h
    by_cases hk : (k == p.1) = true
    · simp only [hk] at h
      injection h with h2
      rw [← h2]
      simp
    · simp only [Bool.not_eq_true] at hk
      simp only [hk] at h
      exact List.mem_cons_of_mem _ (ih h)

theorem getD_mem {α : Type} (l : List α) (n : Nat) (d : α) (hn : n < l.length) :
    l.getD n d ∈ l := by
  rw [List.getD_eq_getElem l d hn]
  exact List.getElem_mem hn

/-! ## Claim C10 -/

/-- C10: for every question text, option extraction returns a
non-empty duplicate-free list, taking deduplicated prefixed options
when present, else deduplicated numeric options, else sorted
deduplicated letter options, else the fixed default list 1..8 even
when no line matches any option shape. -/
theorem extract_options_eq_pref (q : Str)
    (hp : (splitOnChar '\n' q).filterMap matchPrefixOption ≠ []) :
    extract_options_from_question q =
      pyDedup ((splitOnChar '\n' q).filterMap matchPrefixOption) := by
  unfold extract_options_from_question
  simp [hp]

theorem extract_options_eq_num (q : Str)
    (hp : (splitOnChar '\n' q).filterMap matchPrefixOption = [])
    (hn : (splitOnChar '\n' q).filterMap matchNumOption ≠ []) :
    extract_options_from_question q =
      pyDedup ((splitOnChar '\n' q).filterMap matchNumOption) := by
  unfold extract_options_from_question
  simp [hp, hn]

theorem extract_options_eq_letter (q : Str)
    (hp : (splitOnChar '\n' q).filterMap matchPrefixOption = [])
    (hn : (splitOnChar '\n' q).filterMap matchNumOption = [])
    (hl : (splitOnChar '\n' q).filterMap matchLetterOption ≠ []) :
    extract_options_from_question q =
      sortedDedup ((splitOnChar '\n' q).filterMap matchLetterOption) := by
  unfold extract_options_from_question
  simp [hp, hn, hl]

theorem extract_options_eq_default (q : Str)
    (hp : (splitOnChar '\n' q).filterMap matchPrefixOption = [])
    (hn : (splitOnChar '\n' q).filterMap matchNumOption = [])
    (hl : (splitOnChar '\n' q).filterMap matchLetterOption = []) :
    extract_options_from_question q = defaultOptionList := by
  unfold extract_options_from_question
  simp [hp, hn, hl]

theorem extract_options_ne_nil (q : Str) : extract_options_from_question q ≠ [] := by
  by_cases hp : (splitOnChar '\n' q).filterMap matchPrefixOption = []
  · by_cases hn : (splitOnChar '\n' q).filterMap matchNumOption = []
    · by_cases hl : (splitOnChar '\n' q).filterMap matchLetterOption = []
      · rw [extract_options_eq_default q hp hn hl]
        simp [defaultOptionList]
      · rw [extract_options_eq_letter q hp hn hl]
        exact sortedDedup_ne_nil _ hl
    · rw [extract_options_eq_num q hp hn]
      exact pyDedup_ne_nil _ hn
  · rw [extract_options_eq_pref q hp]
    exact pyDedup_ne_nil _ hp

theorem extract_options_nodup (q : Str) : (extract_options_from_question q).Nodup := by
  by_cases hp : (splitOnChar '\n' q).filterMap matchPrefixOption = []
  · by_cases hn : (splitOnChar '\n' q).filterMap matchNumOption = []
    · by_cases hl : (splitOnChar '\n' q).filterMap matchLetterOption = []
      · rw [extract_options_eq_default q hp hn hl]
        simp [defaultOptionList]
      · rw [extract_options_eq_letter q hp hn hl]
        exact sortedDedup_nodup _
    · rw [extract_options_eq_num q hp hn]
      exact pyDedup_nodup _
  · rw [extract_options_eq_pref q hp]
    exact pyDedup_nodup _

theorem C10_option_extraction_total (q : Str) :
    extract_options_from_question q ≠ [] ∧
    (extract_options_from_question q).Nodup ∧
    ((splitOnChar '\n' q).filterMap matchPrefixOption ≠ [] →
      extract_options_from_question q =
        pyDedup ((splitOnChar '\n' q).filterMap matchPrefixOption)) ∧
    ((splitOnChar '\n' q).filterMap matchPrefixOption = [] →
      (splitOnChar '\n' q).filterMap matchNumOption ≠ [] →
      extract_options_from_question q =
        pyDedup ((splitOnChar '\n' q).filterMap matchNumOption)) ∧
    ((splitOnChar '\n' q).filterMap matchPrefixOption = [] →
      (splitOnChar '\n' q).filterMap matchNumOption = [] →
      (splitOnChar '\n' q).filterMap matchLetterOption ≠ [] →
      extract_options_from_question q =
        sortedDedup ((splitOnChar '\n' q).filterMap matchLetterOption)) ∧
    ((splitOnChar '\n' q).filterMap matchPrefixOption = [] →
      (splitOnChar '\n' q).filterMap matchNumOption = [] →
      (splitOnChar '\n' q).filterMap matchLetterOption = [] →
      extract_options_from_question q = defaultOptionList) :=
  ⟨extract_options_ne_nil q, extract_options_nodup q,
   fun hp => extract_options_eq_pref q hp,
   fun hp hn => extract_options_eq_num q hp hn,
   fun hp hn hl => extract_options_eq_letter q hp hn hl,
   fun hp hn hl => extract_options_eq_default q hp hn hl⟩

/-- C10 witness: concrete questions exercising the prefixed, numeric,
letter and default branches. -/
theorem C10_option_extraction_total_witness :
    extract_options_from_question ("no options at all".data) = defaultOptionList ∧
    extract_options_from_question ("B : x\nA : y".data) =
      sortedDedup [['B'], ['A']] ∧
    extract_options_from_question ("1 : x\n2 : y".data) = pyDedup [['1'], ['2']] ∧
    extract_options_from_question ("A1: x\nA2: y".data) = pyDedup [['A', '1'], ['A', '2']] ∧
    extract_options_from_question ("no options at all".data) ≠ [] :=
  ⟨(C10_option_extraction_total ("no options at all".data)).2.2.2.2.2
      (by decide) (by decide) (by decide),
   (C10_option_extraction_total ("B : x\nA : y".data)).2.2.2.2.1
      (by decide) (by decide) (by decide),
   (C10_option_extraction_total ("1 : x\n2 : y".data)).2.2.2.1
      (by decide) (by decide),
   (C10_option_extraction_total ("A1: x\nA2: y".data)).2.2.1 (by decide),
   (C10_option_extraction_total ("no options at all".data)).1⟩

/-! ## Claim C5 -/

/-- C5: for every Features value with at least 3 neighbors, the
standard classifier returns high confidence and the overlap cause,
regardless of every other field, mapping or option list (rule 1 of the
ordered cascade fires first). -/
theorem C5_neighbors_overlap_high (f : Features) (m : List (Str × Str))
    (defaults : List Str) (h : 3 ≤ f.num_neighbors) :
    (solve_standard (some f) m defaults).conf = Conf.high ∧
    (solve_standard (some f) m defaults).cause = "overlap".data ∧
    (solve_standard (some f) m defaults).rule = 1 := by
  have h3 : f.num_neighbors ≥ 3 := h
  simp [solve_standard, h3]

/-- C5 witness: a concrete Features value with 3 neighbors. -/
theorem C5_neighbors_overlap_high_witness :
    (solve_standard (some ⟨-80, -80, 0, 999, 0, 0, 3, 0, 200, false⟩) [] []).conf
        = Conf.high ∧
    (solve_standard (some ⟨-80, -80, 0, 999, 0, 0, 3, 0, 200, false⟩) [] []).cause
        = "overlap".data :=
  ⟨(C5_neighbors_overlap_high ⟨-80, -80, 0, 999, 0, 0, 3, 0, 200, false⟩ [] []
      (by decide)).1,
   (C5_neighbors_overlap_high ⟨-80, -80, 0, 999, 0, 0, 3, 0, 200, false⟩ [] []
      (by decide)).2.1⟩

/-! ## Claim C6 -/

/-- C6: the answer re-resolution for standard questions with a
non-canonical option set follows the case split of the claim: the
option of the computed category when present; else the single available one
of C1/C3; else, with both available, C1 exactly when the computed
category is the weak-coverage one (the determinate content of
"prefer the originally computed category") and C3 otherwise; else the
first listed option. -/
theorem C6_reresolution_cases (cause : Str) (c2o : List (Str × Str))
    (options : List Str) :
    (∀ a, (causeCode cause).bind (fun code => c2o.lookup code) = some a →
      reResolveStd cause c2o options = a) ∧
    ((causeCode cause).bind (fun code => c2o.lookup code) = none →
      (∀ a, c2o.lookup ("C1".data) = some a → c2o.lookup ("C3".data) = none →
        reResolveStd cause c2o options = a) ∧
      (∀ b, c2o.lookup ("C1".data) = none → c2o.lookup ("C3".data) = some b →
        reResolveStd cause c2o options = b) ∧
      (∀ a b, c2o.lookup ("C1".data) = some a → c2o.lookup ("C3".data) = some b →
        reResolveStd cause c2o options =
          (if cause = "weak_coverage".data then a else b)) ∧
      (c2o.lookup ("C1".data) = none → c2o.lookup ("C3".data) = none →
        options ≠ [] →
        reResolveStd cause c2o options = options.headD ("1".data))) := by
  constructor
  · intro a ha
    unfold reResolveStd
    rw [ha]
  · intro hnone
    refine ⟨?_, ?_, ?_, ?_⟩
    · intro a h1 h3
      unfold reResolveStd
      rw [hnone, h1, h3]
    · intro b h1 h3
      unfold reResolveStd
      rw [hnone, h1, h3]
    · intro a b h1 h3
      unfold reResolveStd
      rw [hnone, h1, h3]
    · intro h1 h3 _
      unfold reResolveStd
      rw [hnone, h1, h3]

/-- C6 witness: concrete cause-to-option maps exercising every branch
of the re-resolution. -/
theorem C6_reresolution_cases_witness :
    reResolveStd ("handover".data) [("C5".data, "X".data)] [] = "X".data ∧
    reResolveStd ("handover".data) [("C1".data, "A".data), ("C3".data, "B".data)] []
      = "B".data ∧
    reResolveStd ([])
      [("C2".data, "Y".data), ("C1".data, "A".data), ("C3".data, "B".data)] []
      = "B".data ∧
    reResolveStd ("handover".data) [("C1".data, "A".data)] [] = "A".data ∧
    reResolveStd ("handover".data) [("C3".data, "B".data)] [] = "B".data ∧
    reResolveStd ("handover".data) [] [['7'], ['8']] = ['7'] := by
  refine ⟨?_, ?_, ?_, ?_, ?_, ?_⟩
  · exact (C6_reresolution_cases ("handover".data) [("C5".data, "X".data)] []).1
      ("X".data) (by decide)
  · exact ((C6_reresolution_cases ("handover".data)
      [("C1".data, "A".data), ("C3".data, "B".data)] []).2 (by decide)).2.2.1
      ("A".data) ("B".data) (by decide) (by decide)
  · have := ((C6_reresolution_cases ([])
      [("C2".data, "Y".data), ("C1".data, "A".data), ("C3".data, "B".data)] []).2
      (by decide)).2.2.1 ("A".data) ("B".data) (by decide) (by decide)
    simpa using this
  · exact ((C6_reresolution_cases ("handover".data) [("C1".data, "A".data)] []).2
      (by decide)).1 ("A".data) (by decide) (by decide)
  · exact ((C6_reresolution_cases ("handover".data) [("C3".data, "B".data)] []).2
      (by decide)).2.1 ("B".data) (by decide) (by decide)
  · exact ((C6_reresolution_cases ("handover".data) [] [['7'], ['8']]).2
      (by decide)).2.2.2 (by decide) (by decide) (by decide)

/-! ## Claim C9 -/

/-- Swap the two value slots of a similarity entry. -/
def swapE (e : ℚ × ℚ × Option ℚ × Option ℚ) : ℚ × ℚ × Option ℚ × Option ℚ :=
  (e.1, e.2.1, e.2.2.2, e.2.2.1)

/-- Keep an attribute only where the other snapshot also has it
(the pairwise masking the claim describes). -/
def maskO (a b : Option ℚ) : Option ℚ :=
  if b.isSome then a else none

/-- Restriction of a snapshot to the attributes present in another. -/
def restrictSnap (f g : Snapshot) : Snapshot :=
  ⟨maskO f.min_rsrp g.min_rsrp, maskO f.max_tilt g.max_tilt,
   maskO f.total_tilt g.total_tilt, maskO f.handovers g.handovers,
   maskO f.max_speed g.max_speed, maskO f.avg_rb g.avg_rb,
   maskO f.num_neighbors g.num_neighbors⟩

theorem simStep_swap (acc : ℚ × ℚ) (e : ℚ × ℚ × Option ℚ × Option ℚ) :
    simStep acc (swapE e) = simStep acc e := by
  rcases e with ⟨w, n, v1, v2⟩
  cases v1 <;> cases v2 <;> simp [simStep, swapE, abs_sub_comm]

theorem simEntries_swap (f1 f2 : Snapshot) :
    simEntries f2 f1 = (simEntries f1 f2).map swapE := rfl

theorem foldl_simStep_map_swap (l : List (ℚ × ℚ × Option ℚ × Option ℚ)) :
    ∀ acc : ℚ × ℚ, (l.map swapE).foldl simStep acc = l.foldl simStep acc := by
  induction l with
  | nil => intro acc; rfl
  | cons e es ih =>
    intro acc
    rw [List.map_cons, List.foldl_cons, List.foldl_cons, simStep_swap]
    exact ih _

theorem simFold_bounds (l : List (ℚ × ℚ × Option ℚ × Option ℚ))
    (hw : ∀ e ∈ l, 0 ≤ e.1 ∧ 0 < e.2.1) :
    ∀ acc : ℚ × ℚ, 0 ≤ acc.1 → acc.1 ≤ acc.2 →
      0 ≤ (l.foldl simStep acc).1 ∧ (l.foldl simStep acc).1 ≤ (l.foldl simStep acc).2 := by
  induction l with
  | nil => intro acc h0 h1; exact ⟨h0, h1⟩
  | cons e es ih =>
    intro acc h0 h1
    have he := hw e (List.mem_cons_self e es)
    have hes : ∀ x ∈ es, 0 ≤ x.1 ∧ 0 < x.2.1 :=
      fun x hx => hw x (List.mem_cons_of_mem e hx)
    rw [List.foldl_cons]
    rcases e with ⟨w, n, v1, v2⟩
    cases v1 with
    | none => exact ih hes acc h0 h1
    | some a =>
      cases v2 with
      | none => exact ih hes acc h0 h1
      | some b =>
        have hterm0 : (0 : ℚ) ≤ max 0 (1 - |a - b| / n) := le_max_left 0 _
        have hterm1 : max 0 (1 - |a - b| / n) ≤ 1 := by
          refine max_le (by norm_num) ?_
          have : (0 : ℚ) ≤ |a - b| / n := div_nonneg (abs_nonneg _) (le_of_lt he.2)
          linarith
        have hstep : simStep acc (w, n, some a, some b) =
            (acc.1 + w * max 0 (1 - |a - b| / n), acc.2 + w) := rfl
        rw [hstep]
        refine ih hes _ ?_ ?_
        · have : (0 : ℚ) ≤ w * max 0 (1 - |a - b| / n) := mul_nonneg he.1 hterm0
          simp only
          linarith
        · have : w * max 0 (1 - |a - b| / n) ≤ w * 1 :=
            mul_le_mul_of_nonneg_left hterm1 he.1
          simp only
          linarith

theorem simEntries_weights (f1 f2 : Snapshot) :
    ∀ e ∈ simEntries f1 f2, 0 ≤ e.1 ∧ 0 < e.2.1 := by
  intro e he
  simp only [simEntries, List.mem_cons, List.not_mem_nil, or_false] at he
  rcases he with rfl | rfl | rfl | rfl | rfl | rfl | rfl <;> norm_num

theorem simFold_skip (l : List (ℚ × ℚ × Option ℚ × Option ℚ))
    (h : ∀ e ∈ l, e.2.2.1 = none ∨ e.2.2.2 = none) :
    ∀ acc : ℚ × ℚ, l.foldl simStep acc = acc := by
  induction l with
  | nil => intro acc; rfl
  | cons e es ih =>
    intro acc
    have he := h e (List.mem_cons_self e es)
    have hes : ∀ x ∈ es, x.2.2.1 = none ∨ x.2.2.2 = none :=
      fun x hx => h x (List.mem_cons_of_mem e hx)
    rw [List.foldl_cons]
    have : simStep acc e = acc := by
      rcases e with ⟨w, n, v1, v2⟩
      rcases he with h1 | h2
      · simp only at h1
        subst h1
        rfl
      · simp only at h2
        subst h2
        cases v1 <;> rfl
    rw [this]
    exact ih hes acc

theorem simStep_mask (acc : ℚ × ℚ) (w n : ℚ) (a b : Option ℚ) :
    simStep acc (w, n, maskO a b, maskO b a) = simStep acc (w, n, a, b) := by
  cases a <;> cases b <;> simp [simStep, maskO]

/-- C9: compute_similarity is symmetric, lies in [0, 1], depends only
on the attributes present in both snapshots (pairwise masking), and is
0 when no attribute is present on both sides. -/
theorem C9_similarity_properties (f1 f2 : Option Snapshot) :
    compute_similarity f1 f2 = compute_similarity f2 f1 ∧
    0 ≤ compute_similarity f1 f2 ∧
    compute_similarity f1 f2 ≤ 1 ∧
    (∀ g1 g2, f1 = some g1 → f2 = some g2 →
      compute_similarity (some (restrictSnap g1 g2)) (some (restrictSnap g2 g1)) =
        compute_similarity f1 f2) ∧
    (∀ g1 g2, f1 = some g1 → f2 = some g2 →
      (∀ e ∈ simEntries g1 g2, e.2.2.1 = none ∨ e.2.2.2 = none) →
      compute_similarity f1 f2 = 0) := by
  have hsym : ∀ a b : Option Snapshot, compute_similarity a b = compute_similarity b a := by
    intro a b
    cases a with
    | none => cases b <;> rfl
    | some g1 =>
      cases b with
      | none => rfl
      | some g2 =>
        simp only [compute_similarity, simFold]
        rw [simEntries_swap g1 g2, foldl_simStep_map_swap]
  refine ⟨hsym f1 f2, ?_, ?_, ?_, ?_⟩
  · cases f1 with
    | none => cases f2 <;> simp [compute_similarity]
    | some g1 =>
      cases f2 with
      | none => simp [compute_similarity]
      | some g2 =>
        simp only [compute_similarity]
        have hb := simFold_bounds (simEntries g1 g2) (simEntries_weights g1 g2)
          (0, 0) le_rfl le_rfl
        by_cases hpos : (simFold (simEntries g1 g2)).2 > 0
        · rw [if_pos hpos]
          exact div_nonneg hb.1 (le_of_lt hpos)
        · rw [if_neg hpos]
  · cases f1 with
    | none => cases f2 <;> simp [compute_similarity]
    | some g1 =>
      cases f2 with
      | none => simp [compute_similarity]
      | some g2 =>
        simp only [compute_similarity]
        have hb := simFold_bounds (simEntries g1 g2) (simEntries_weights g1 g2)
          (0, 0) le_rfl le_rfl
        by_cases hpos : (simFold (simEntries g1 g2)).2 > 0
        · rw [if_pos hpos]
          exact (div_le_one hpos).mpr hb.2
        · rw [if_neg hpos]
          norm_num
  · intro g1 g2 h1 h2
    subst h1
    subst h2
    simp only [compute_similarity, simEntries, restrictSnap, simFold,
      List.foldl_cons, List.foldl_nil, simStep_mask]
  · intro g1 g2 h1 h2 hnone
    subst h1
    subst h2
    simp only [compute_similarity, simFold]
    rw [simFold_skip (simEntries g1 g2) hnone (0, 0)]
    norm_num

/-- C9 witness: two concrete snapshots, one with only the RSRP
attribute and one with only the tilt attribute, have similarity 0 in
both orders, and a masked comparison coincides with the unmasked
one. -/
theorem C9_similarity_properties_witness :
    compute_similarity (some ⟨some (-80), none, none, none, none, none, none⟩)
        (some ⟨none, some 10, none, none, none, none, none⟩) = 0 ∧
    compute_similarity (some ⟨some (-80), none, none, none, none, none, none⟩)
        (some ⟨none, some 10, none, none, none, none, none⟩) =
      compute_similarity (some ⟨none, some 10, none, none, none, none, none⟩)
        (some ⟨some (-80), none, none, none, none, none, none⟩) := by
  constructor
  · exact (C9_similarity_properties
      (some ⟨some (-80), none, none, none, none, none, none⟩)
      (some ⟨none, some 10, none, none, none, none, none⟩)).2.2.2.2 _ _ rfl rfl
      (by decide)
  · exact (C9_similarity_properties
      (some ⟨some (-80), none, none, none, none, none, none⟩)
      (some ⟨none, some 10, none, none, none, none, none⟩)).1

/-! ## Claim C7 -/

theorem headD_mem {α : Type} (l : List α) (d : α) (h : l ≠ []) : l.headD d ∈ l := by
  cases l with
  | nil => exact absurd rfl h
  | cons a as => simp

theorem findSome?_exists {α β : Type} (f : α → Option β) (l : List α) (b : β)
    (h : l.findSome? f = some b) : ∃ a ∈ l, f a = some b := by
  induction l with
  | nil => simp [List.findSome?] at h
  | cons x xs ih =>
    rw [List.findSome?_cons] at h
    cases hx : f x with
    | some y =>
      rw [hx] at h
      injection h with h2
      exact ⟨x, List.mem_cons_self x xs, by rw [hx, h2]⟩
    | none =>
      rw [hx] at h
      obtain ⟨a, ha, hfa⟩ := ih h
      exact ⟨a, List.mem_cons_of_mem x ha, hfa⟩

theorem tryPattern_mem (t : Str) (opts : List Str) (pat : Str → Option Str) (a : Str)
    (h : tryPattern t opts pat = some a) : a ∈ opts := by
  unfold tryPattern at h
  cases hp : pat t with
  | none => rw [hp] at h; exact absurd h (by simp)
  | some ansRaw =>
    rw [hp] at h
    simp only at h
    by_cases hin : pyStrip ansRaw ∈ opts
    · rw [if_pos hin] at h
      injection h with h2
      rw [← h2]
      exact hin
    · rw [if_neg hin] at h
      exact List.mem_of_find?_eq_some h

/-- C7: answer extraction is total and deterministic, always returning
a member of a non-empty valid-option list, and on the response
"The answer is: B" with options A, B, C it extracts B. -/
theorem C7_extraction_total_member :
    (∀ (resp : Str) (opts : List Str), opts ≠ [] →
      extract_ai_answer resp opts ∈ opts) ∧
    extract_ai_answer ("The answer is: B".data) [['A'], ['B'], ['C']] = ['B'] := by
  constructor
  · intro resp opts h
    by_cases h0 : resp = []
    · simp only [extract_ai_answer, if_pos h0]
      exact headD_mem opts _ h
    · simp only [extract_ai_answer, if_neg h0]
      by_cases h1 : pyStrip resp ∈ opts
      · rw [if_pos h1]
        exact h1
      · rw [if_neg h1]
        cases hfs : aiPatterns.findSome? (tryPattern (pyStrip resp) opts) with
        | some a =>
          simp only [hfs]
          obtain ⟨pat, _, hpat⟩ := findSome?_exists _ _ _ hfs
          exact tryPattern_mem _ _ _ _ hpat
        | none =>
          simp only [hfs]
          cases hfl : opts.find?
              (fun o => o.isPrefixOf (pyStrip ((splitOnChar '\n' (pyStrip resp)).headD []))) with
          | some o =>
            simp only [hfl]
            exact List.mem_of_find?_eq_some hfl
          | none =>
            simp only [hfl]
            cases hwb : opts.find? (fun o => wbGo o none (pyStrip resp)) with
            | some o =>
              simp only [hwb]
              exact List.mem_of_find?_eq_some hwb
            | none =>
              simp only [hwb]
              exact headD_mem opts _ h
  · decide

/-- C7 witness: the universal part applied at the example input. -/
theorem C7_extraction_total_member_witness :
    extract_ai_answer ("The answer is: B".data) [['A'], ['B'], ['C']] ∈
      [['A'], ['B'], ['C']] :=
  C7_extraction_total_member.1 ("The answer is: B".data) [['A'], ['B'], ['C']]
    (by decide)

/-! ## Claim C8 -/

theorem callLoopAux_calls_le (api : Nat → ApiOutcome) (fuel : Nat) :
    ∀ attempt, (callLoopAux api attempt fuel).2 ≤ fuel := by
  induction fuel with
  | zero => intro attempt; simp [callLoopAux]
  | succ n ih =>
    intro attempt
    simp only [callLoopAux]
    cases api attempt with
    | ok c => simp
    | rateLimit => simpa using Nat.succ_le_succ (ih (attempt + 1))
    | serverError => simpa using Nat.succ_le_succ (ih (attempt + 1))
    | httpOther => simpa using Nat.succ_le_succ (ih (attempt + 1))
    | timeoutErr => simpa using Nat.succ_le_succ (ih (attempt + 1))
    | connError => simpa using Nat.succ_le_succ (ih (attempt + 1))
    | excRetryable => simpa using Nat.succ_le_succ (ih (attempt + 1))
    | excOther => simpa using Nat.succ_le_succ (ih (attempt + 1))

/-- C8: every escalation task terminates within the five-attempt
budget of call_ai_api, ending accepted with an answer extracted from
the oracle response, or failed with the caller-supplied rule answer
substituted; exhausting the budget only yields the failed case, never
an error. -/
theorem C8_escalation_terminates (api : Nat → ApiOutcome) (task : AiTask) :
    (call_ai_api api 5).2 ≤ 5 ∧
    (((process_ai_task api task).ai_success = true ∧
       ∃ c, (call_ai_api api 5).1 = some c ∧ c ≠ [] ∧
         (process_ai_task api task).ai_answer = extract_ai_answer c task.options) ∨
     ((process_ai_task api task).ai_success = false ∧
       (process_ai_task api task).ai_answer = task.rule_answer)) := by
  refine ⟨callLoopAux_calls_le api 5 0, ?_⟩
  unfold process_ai_task
  cases hc : (call_ai_api api 5).1 with
  | none => exact Or.inr ⟨rfl, rfl⟩
  | some c =>
    dsimp only
    by_cases hne : c ≠ []
    · rw [if_pos hne]
      exact Or.inl ⟨rfl, c, rfl, hne, rfl⟩
    · rw [if_neg hne]
      exact Or.inr ⟨rfl, rfl⟩

/-! ## Claim C4 -/

theorem featStepSpeed_rsrps (st : FeatScan) (r : Rec) :
    (featStepSpeed st r).rsrps = st.rsrps := by
  unfold featStepSpeed
  cases pyFloat ((dget r ("GPS Speed (km/h)".data)).getD ("0".data)) <;> rfl

theorem featStepPci_rsrps (st : FeatScan) (r : Rec) :
    (featStepPci st r).rsrps = st.rsrps := by
  unfold featStepPci
  cases pyInt ((dget r ("5G KPI PCell RF Serving PCI".data)).getD ("-1".data)) <;> rfl

theorem featStepNeighbor_rsrps (st : FeatScan) (r : Rec) :
    (featStepNeighbor st r).rsrps = st.rsrps := by
  unfold featStepNeighbor
  dsimp only
  split
  · split <;> rfl
  · rfl

theorem featStepRb_rsrps (st : FeatScan) (r : Rec) :
    (featStepRb st r).rsrps = st.rsrps := by
  unfold featStepRb
  cases pyFloat ((dget r ("5G KPI PCell Layer1 DL RB Num (Including 0)".data)).getD ("200".data)) <;> rfl

/-- With the RSRP column missing from a record, the `dict.get` default
-80 parses and is appended: the scan silently substitutes a value. -/
theorem featStep_rsrps_of_missing (st : FeatScan) (r : Rec)
    (hr : dget r ("5G KPI PCell RF Serving SS-RSRP [dBm]".data) = none) :
    (featStep st r).rsrps = st.rsrps ++ [(-80 : ℚ)] := by
  unfold featStep featStepRsrp
  rw [hr]
  have h80 : pyFloat ((none : Option Str).getD ("-80".data)) = some (-80) := by decide
  rw [h80]
  rw [featStepRb_rsrps, featStepNeighbor_rsrps, featStepPci_rsrps, featStepSpeed_rsrps]

theorem foldl_featStep_rsrps_missing (records : List Rec)
    (h : ∀ r ∈ records, dget r ("5G KPI PCell RF Serving SS-RSRP [dBm]".data) = none) :
    ∀ st : FeatScan,
      (records.foldl featStep st).rsrps =
        st.rsrps ++ List.replicate records.length (-80 : ℚ) := by
  induction records with
  | nil => intro st; simp
  | cons r rs ih =>
    intro st
    have hr := h r (List.mem_cons_self r rs)
    have hrs : ∀ x ∈ rs, dget x ("5G KPI PCell RF Serving SS-RSRP [dBm]".data) = none :=
      fun x hx => h x (List.mem_cons_of_mem r hx)
    rw [List.foldl_cons, ih hrs, featStep_rsrps_of_missing st r hr]
    rw [List.append_assoc]
    rfl

theorem foldl_min_replicate (n : Nat) (x : ℚ) :
    (List.replicate n x).foldl min x = x := by
  induction n with
  | zero => rfl
  | succ k ih => simpa [List.replicate_succ, min_self] using ih

/-- C4 amended: the whole Features value is absent exactly when no
drive-test table row parses; but a missing optional source column does
not make the corresponding field absent — when every parsed record
lacks the RSRP column the field silently receives the per-row default
-80. -/
theorem C4_missing_column_defaults (q : Str) :
    (extract_features q = none ↔ (parse_drive_test_data q).1 = []) ∧
    ((parse_drive_test_data q).1 ≠ [] →
      (∀ r ∈ (parse_drive_test_data q).1,
        dget r ("5G KPI PCell RF Serving SS-RSRP [dBm]".data) = none) →
      ∃ f, extract_features q = some f ∧ f.min_rsrp = -80) := by
  constructor
  · constructor
    · intro h
      by_contra hne
      unfold extract_features at h
      rw [if_neg hne] at h
      exact Option.some_ne_none _ h
    · intro h
      unfold extract_features
      rw [if_pos h]
  · intro hne hall
    unfold extract_features
    rw [if_neg hne]
    refine ⟨_, rfl, ?_⟩
    show minD ((parse_drive_test_data q).1.foldl featStep ⟨[], [], [], [], [], none, 0⟩).rsrps (-999) = -80
    rw [foldl_featStep_rsrps_missing (parse_drive_test_data q).1 hall]
    cases hrec : (parse_drive_test_data q).1 with
    | nil => exact absurd hrec hne
    | cons r rs =>
      simp only [List.nil_append, List.length_cons, List.replicate_succ, minD]
      exact foldl_min_replicate rs.length (-80)

/-- C4 witness: a one-row drive-test table with no RSRP column gets
min_rsrp = -80. -/
theorem C4_missing_column_defaults_witness :
    ∃ f, extract_features ("Timestamp|Longitude|Latitude|GPS Speed (km/h)\nt|0|0|5".data)
        = some f ∧ f.min_rsrp = -80 :=
  (C4_missing_column_defaults
      ("Timestamp|Longitude|Latitude|GPS Speed (km/h)\nt|0|0|5".data)).2
    (by decide) (by decide)

set_option maxRecDepth 1000000 in
/-- C4 counterexample: a case whose telemetry table has an RSRP column
with no parsable value.  The extracted Features is present with the
sentinel -999 in min_rsrp (not absent), and the standard classifier
fires the high-confidence weak-coverage rule on that sentinel; under
the rule-side default -80 that the claim prescribes for an absent
field, the same case would classify as low-confidence
neighbor_higher. -/
theorem C4_counterexample :
    extract_features ("Timestamp|Longitude|Latitude|GPS Speed (km/h)|5G KPI PCell RF Serving PCI|5G KPI PCell RF Serving SS-RSRP [dBm]\nt1|0|0|10|100|-\nt2|0|0|10|101|-\ngNodeB ID|Cell ID|Longitude|Latitude|PCI|Mechanical Downtilt|Digital Tilt\n1|1|0|0|100|10|5\n1|1|0|0|101|10|5".data)
      = some ⟨-999, -999, 15, 15, 30, 1, 0, 10, 200, false⟩ ∧
    (solve_standard (some ⟨-999, -999, 15, 15, 30, 1, 0, 10, 200, false⟩) []
        defaultOptionList).cause = "weak_coverage".data ∧
    (solve_standard (some ⟨-999, -999, 15, 15, 30, 1, 0, 10, 200, false⟩) []
        defaultOptionList).conf = Conf.high ∧
    (solve_standard (some ⟨-80, -999, 15, 15, 30, 1, 0, 10, 200, false⟩) []
        defaultOptionList).cause = "neighbor_higher".data ∧
    (solve_standard (some ⟨-80, -999, 15, 15, 30, 1, 0, 10, 200, false⟩) []
        defaultOptionList).conf = Conf.low := by
  refine ⟨?_, ?_, ?_, ?_, ?_⟩ <;> with_unfolding_all decide

/-! ## Claim C1 -/

/-- Every escalation task built by Solver.run belongs to an
unprocessed case that needs the oracle and is absent from the answer
cache. -/
theorem buildAiTasks_spec (rows : List InRow) (processed : List Str)
    (cache : List (Str × Str)) :
    ∀ t ∈ buildAiTasks rows processed cache,
      (processCase t.question).needsAI = true ∧
      cache.lookup t.qid = none ∧ t.qid ∉ processed := by
  intro t ht
  unfold buildAiTasks at ht
  obtain ⟨r, hr, hcond⟩ := List.mem_filterMap.mp ht
  have hrmem := List.mem_filter.mp hr
  have hrnp : r.id ∉ processed := by
    have := hrmem.2
    simpa using this
  by_cases hc : (processCase r.question).needsAI && (cache.lookup r.id).isNone
  · rw [if_pos hc] at hcond
    injection hcond with h2
    obtain ⟨hna, hcn⟩ := (Bool.and_eq_true _ _).mp hc
    subst h2
    exact ⟨hna, Option.isNone_iff_eq_none.mp hcn, hrnp⟩
  · rw [if_neg hc] at hcond
    exact absurd hcond (by simp)

/-- C1 counterexample: a standard question with no data rows gets a
low-confidence rule classification, yet it is not escalated — no
escalation task is created for it (standard questions never set
needs_ai). -/
theorem C1_counterexample :
    (processCase ("Timestamp|Longitude|Latitude|GPS Speed (km/h)".data)).confidence
        = "low".data ∧
    (processCase ("Timestamp|Longitude|Latitude|GPS Speed (km/h)".data)).qtype
        = QType.standard ∧
    (processCase ("Timestamp|Longitude|Latitude|GPS Speed (km/h)".data)).needsAI
        = false ∧
    buildAiTasks
        [⟨"q7".data, "Timestamp|Longitude|Latitude|GPS Speed (km/h)".data⟩] [] []
        = [] := by
  refine ⟨?_, ?_, ?_, ?_⟩ <;> with_unfolding_all decide

/-- C1 amended: a case is escalated (needs_ai) iff it is a
nonstandard-telecom case whose rule confidence is low, or a
non-telecom case (recorded with confidence none); standard cases are
never escalated, whatever their confidence; and every escalation task
belongs to an unprocessed needs_ai case absent from the oracle
cache. -/
theorem C1_escalation_rule :
    (∀ q : Str,
      (processCase q).needsAI = true ↔
        ((processCase q).qtype = QType.nonstandardTelecom ∧
          (processCase q).confidence = "low".data) ∨
        (processCase q).qtype = QType.nonstandardOther) ∧
    (∀ (rows : List InRow) (processed : List Str) (cache : List (Str × Str)),
      ∀ t ∈ buildAiTasks rows processed cache,
        (processCase t.question).needsAI = true ∧
        cache.lookup t.qid = none ∧ t.qid ∉ processed) := by
  constructor
  · intro q
    cases h : get_question_type q with
    | standard => simp [processCase, h]
    | nonstandardTelecom =>
      cases hc : (solve_nonstandard q (extract_option_mapping q)
          (extract_options_from_question q)).conf with
      | high => simp [processCase, h, hc, confStr]
      | low => simp [processCase, h, hc, confStr]
    | nonstandardOther => simp [processCase, h]
  · exact buildAiTasks_spec

/-- C1 witness: a non-telecom question produces exactly one escalation
task, and that task satisfies the escalation rule. -/
theorem C1_escalation_rule_witness :
    (processCase ("hello".data)).needsAI = true ∧
    ((("nt".data : Str) ∉ ([] : List Str)) ∧
      (([] : List (Str × Str)).lookup ("nt".data) = none)) :=
  ⟨(C1_escalation_rule.1 ("hello".data)).mpr
      (Or.inr (by with_unfolding_all decide)),
   (C1_escalation_rule.2 [⟨"nt".data, "hello".data⟩] [] []
      ⟨"nt".data, "hello".data, defaultOptionList, ['1']⟩
      (by with_unfolding_all decide)).2.2,
   (C1_escalation_rule.2 [⟨"nt".data, "hello".data⟩] [] []
      ⟨"nt".data, "hello".data, defaultOptionList, ['1']⟩
      (by with_unfolding_all decide)).2.1⟩

/-! ## Claim C2 -/

theorem solve_standard_answer_eq (f : Option Features) (m : List (Str × Str))
    (d : List Str) :
    (solve_standard f m d).answer = getStdAnswer (solve_standard f m d).cause m d := rfl

theorem min_two_sub_one_lt (n : Nat) (h : n ≠ 0) : min 2 (n - 1) < n := by
  have := Nat.min_le_right 2 (n - 1)
  omega

theorem min_five_sub_one_lt (n : Nat) (h : n ≠ 0) : min 5 (n - 1) < n := by
  have := Nat.min_le_right 5 (n - 1)
  omega

theorem getStdAnswer_mem (cause : Str) (m : List (Str × Str)) (defaults : List Str)
    (h : defaults ≠ []) :
    getStdAnswer cause m defaults ∈ m.map Prod.snd ∨
    getStdAnswer cause m defaults ∈ defaults := by
  unfold getStdAnswer
  cases hl : m.lookup cause with
  | some a =>
    simp only [hl]
    exact Or.inl (lookup_mem_values m cause a hl)
  | none =>
    simp only [hl]
    generalize (if cause = "neighbor_higher".data
        then ["overlap".data, "neighbor_higher".data]
        else if cause = "overlap".data then ["neighbor_higher".data, "overlap".data]
        else []) = backups
    cases hf : backups.findSome? (fun b => m.lookup b) with
    | some a =>
      simp only [hf]
      obtain ⟨b, _, hlb⟩ := findSome?_exists _ _ _ hf
      exact Or.inl (lookup_mem_values _ _ _ hlb)
    | none =>
      simp only [hf]
      rw [if_pos h]
      refine Or.inr (getD_mem _ _ _ ?_)
      exact min_two_sub_one_lt _ (fun hz => h (List.eq_nil_of_length_eq_zero hz))

theorem getNtAnswer_mem (cause : Str) (m : List (Str × Str)) (defaults : List Str)
    (h : defaults ≠ []) :
    getNtAnswer cause m defaults ∈ m.map Prod.snd ∨
    getNtAnswer cause m defaults ∈ defaults := by
  unfold getNtAnswer
  cases hl : m.lookup cause with
  | some a =>
    simp only [hl]
    exact Or.inl (lookup_mem_values m cause a hl)
  | none =>
    simp only [hl]
    cases hw : m.lookup ("weak_coverage_rf".data) with
    | some a =>
      simp only [hw]
      exact Or.inl (lookup_mem_values _ _ _ hw)
    | none =>
      simp only [hw]
      rw [if_pos h]
      refine Or.inr (getD_mem _ _ _ ?_)
      exact min_five_sub_one_lt _ (fun hz => h (List.eq_nil_of_length_eq_zero hz))

theorem reResolveStd_mem (cause : Str) (c2o : List (Str × Str)) (options : List Str)
    (h : options ≠ []) :
    reResolveStd cause c2o options ∈ c2o.map Prod.snd ∨
    reResolveStd cause c2o options ∈ options := by
  unfold reResolveStd
  cases hb : (causeCode cause).bind (fun code => c2o.lookup code) with
  | some a =>
    simp only [hb]
    cases hcc : causeCode cause with
    | none => rw [hcc] at hb; exact absurd hb (by simp)
    | some code =>
      rw [hcc] at hb
      simp only [Option.some_bind] at hb
      exact Or.inl (lookup_mem_values _ _ _ hb)
  | none =>
    simp only [hb]
    cases h1 : c2o.lookup ("C1".data) with
    | some a =>
      cases h3 : c2o.lookup ("C3".data) with
      | some b =>
        simp only [h1, h3]
        by_cases hw : cause = "weak_coverage".data
        · rw [if_pos hw]
          exact Or.inl (lookup_mem_values _ _ _ h1)
        · rw [if_neg hw]
          exact Or.inl (lookup_mem_values _ _ _ h3)
      | none =>
        simp only [h1, h3]
        exact Or.inl (lookup_mem_values _ _ _ h1)
    | none =>
      cases h3 : c2o.lookup ("C3".data) with
      | some b =>
        simp only [h1, h3]
        exact Or.inl (lookup_mem_values _ _ _ h3)
      | none =>
        simp only [h1, h3]
        exact Or.inr (headD_mem options _ h)

theorem solve_nonstandard_answer_eq (q : Str) (m : List (Str × Str)) (d : List Str) :
    (solve_nonstandard q m d).answer =
      getNtAnswer (solve_nonstandard q m d).cause m d := by
  unfold solve_nonstandard
  dsimp only
  split
  · rfl
  · split
    · rfl
    · split
      · rfl
      · rfl

theorem solve_nonstandard_excluded_sub (q : Str) (m : List (Str × Str)) (d : List Str) :
    ∀ x ∈ (solve_nonstandard q m d).excluded, x ∈ m.map Prod.snd := by
  unfold solve_nonstandard
  dsimp only
  split
  · intro x hx; simp at hx
  · split
    · intro x hx; simp at hx
    · split
      · intro x hx; simp at hx
      · intro x hx
        have hsub := pyDedup_sub _ x hx
        obtain ⟨c, _, hlc⟩ := List.mem_filterMap.mp hsub
        exact lookup_mem_values _ _ _ hlc

/-- C2 amended: the rule answer is always drawn from the extracted
option list, the keyword option-mapping values, or the cause-to-option
back-mapping values (all option ids read off the option
lines), and the excluded options are always among the keyword
option-mapping values.  Membership in the extracted option list alone
does not hold (see the counterexample), nor are these ids confined to
the letters A-I. -/
theorem C2_answer_membership (q : Str) :
    (extract_options_from_question q ≠ [] →
      (processCase q).ruleAnswer ∈ extract_options_from_question q ∨
      (processCase q).ruleAnswer ∈ (extract_option_mapping q).map Prod.snd ∨
      (processCase q).ruleAnswer ∈ (get_cause_to_option q).map Prod.snd) ∧
    (∀ x ∈ (processCase q).excludedOpts,
      x ∈ (extract_option_mapping q).map Prod.snd) := by
  cases h : get_question_type q with
  | standard =>
    simp only [processCase, h]
    constructor
    · intro hne
      by_cases hlen : (extract_options_from_question q).length ≠ 8
      · rw [if_pos hlen]
        rcases reResolveStd_mem _ (get_cause_to_option q) _ hne with hc | ho
        · exact Or.inr (Or.inr hc)
        · exact Or.inl ho
      · rw [if_neg hlen]
        rw [solve_standard_answer_eq]
        rcases getStdAnswer_mem _ (extract_option_mapping q) _ hne with hm | ho
        · exact Or.inr (Or.inl hm)
        · exact Or.inl ho
    · intro x hx
      simp at hx
  | nonstandardTelecom =>
    simp only [processCase, h]
    constructor
    · intro hne
      rw [solve_nonstandard_answer_eq]
      rcases getNtAnswer_mem _ (extract_option_mapping q) _ hne with hm | ho
      · exact Or.inr (Or.inl hm)
      · exact Or.inl ho
    · intro x hx
      have : x ∈ (solve_nonstandard q (extract_option_mapping q)
          (extract_options_from_question q)).excluded :=
        ((sortStr_perm _).mem_iff).mp hx
      exact solve_nonstandard_excluded_sub _ _ _ x this
  | nonstandardOther =>
    simp only [processCase, h]
    constructor
    · intro hne
      exact Or.inl (headD_mem _ _ hne)
    · intro x hx
      simp at hx

/-- C2 counterexample: a standard-typed question whose only extracted
option is the numeric id 1, while the option line "B : ..." feeds the
keyword mapping; the rule classifier chooses B, which is not in the
extracted option set. -/
theorem C2_counterexample :
    extract_options_from_question
        ("Timestamp|Longitude|Latitude|GPS Speed (km/h)\n1 : foo\nB : neighboring cell provides higher throughput".data)
      = [['1']] ∧
    (processCase
        ("Timestamp|Longitude|Latitude|GPS Speed (km/h)\n1 : foo\nB : neighboring cell provides higher throughput".data)).ruleAnswer
      = ['B'] ∧
    (processCase
        ("Timestamp|Longitude|Latitude|GPS Speed (km/h)\n1 : foo\nB : neighboring cell provides higher throughput".data)).ruleAnswer
      ∉ extract_options_from_question
        ("Timestamp|Longitude|Latitude|GPS Speed (km/h)\n1 : foo\nB : neighboring cell provides higher throughput".data) := by
  refine ⟨?_, ?_, ?_⟩ <;> with_unfolding_all decide

/-- C2 witness: the amended membership at the counterexample input,
where the chosen answer comes from the mapping values. -/
theorem C2_answer_membership_witness :
    (processCase
        ("Timestamp|Longitude|Latitude|GPS Speed (km/h)\n1 : foo\nB : neighboring cell provides higher throughput".data)).ruleAnswer
      ∈ extract_options_from_question
        ("Timestamp|Longitude|Latitude|GPS Speed (km/h)\n1 : foo\nB : neighboring cell provides higher throughput".data) ∨
    (processCase
        ("Timestamp|Longitude|Latitude|GPS Speed (km/h)\n1 : foo\nB : neighboring cell provides higher throughput".data)).ruleAnswer
      ∈ (extract_option_mapping
        ("Timestamp|Longitude|Latitude|GPS Speed (km/h)\n1 : foo\nB : neighboring cell provides higher throughput".data)).map Prod.snd ∨
    (processCase
        ("Timestamp|Longitude|Latitude|GPS Speed (km/h)\n1 : foo\nB : neighboring cell provides higher throughput".data)).ruleAnswer
      ∈ (get_cause_to_option
        ("Timestamp|Longitude|Latitude|GPS Speed (km/h)\n1 : foo\nB : neighboring cell provides higher throughput".data)).map Prod.snd :=
  (C2_answer_membership _).1 (by with_unfolding_all decide)

/-! ## Claim C3 -/

theorem finalizeStep_keeps_results (mp : List (Str × CaseData))
    (cache : List (Str × Str)) (acc : List Str × List OutRow) (r : InRow) :
    acc.2 <+: (finalizeStep mp cache acc r).2 := by
  unfold finalizeStep
  by_cases hm : r.id ∈ acc.1
  · rw [if_pos hm]
  · rw [if_neg hm]
    cases mp.lookup r.id with
    | none => exact List.prefix_refl _
    | some d => exact List.prefix_append _ _

theorem finalizeStep_processed_mono (mp : List (Str × CaseData))
    (cache : List (Str × Str)) (acc : List Str × List OutRow) (r : InRow) :
    ∀ id ∈ acc.1, id ∈ (finalizeStep mp cache acc r).1 := by
  intro id hid
  unfold finalizeStep
  by_cases hm : r.id ∈ acc.1
  · rw [if_pos hm]
    exact hid
  · rw [if_neg hm]
    cases mp.lookup r.id with
    | none => exact hid
    | some d => exact List.mem_append_left _ hid

theorem finalize_keeps_results (mp : List (Str × CaseData))
    (cache : List (Str × Str)) (rowsL : List InRow) :
    ∀ acc : List Str × List OutRow, acc.2 <+: (finalize mp cache rowsL acc).2 := by
  induction rowsL with
  | nil => intro acc; exact List.prefix_refl _
  | cons r rs ih =>
    intro acc
    have hstep : finalize mp cache (r :: rs) acc =
        finalize mp cache rs (finalizeStep mp cache acc r) := rfl
    rw [hstep]
    exact (finalizeStep_keeps_results mp cache acc r).trans
      (ih (finalizeStep mp cache acc r))

theorem finalize_processed_mono (mp : List (Str × CaseData))
    (cache : List (Str × Str)) (rowsL : List InRow) :
    ∀ acc : List Str × List OutRow, ∀ id ∈ acc.1,
      id ∈ (finalize mp cache rowsL acc).1 := by
  induction rowsL with
  | nil => intro acc id hid; exact hid
  | cons r rs ih =>
    intro acc id hid
    have hstep : finalize mp cache (r :: rs) acc =
        finalize mp cache rs (finalizeStep mp cache acc r) := rfl
    rw [hstep]
    exact ih (finalizeStep mp cache acc r) id
      (finalizeStep_processed_mono mp cache acc r id hid)

theorem upsertKV_key_sub {α β : Type} [DecidableEq α] (m : List (α × β)) (k : α) (v : β) :
    ∀ pr ∈ upsertKV m k v, pr.1 = k ∨ pr.1 ∈ m.map Prod.fst := by
  intro pr hpr
  unfold upsertKV at hpr
  by_cases hc : m.any (fun p => p.1 == k)
  · rw [if_pos hc] at hpr
    obtain ⟨p, hp, hmap⟩ := List.mem_map.mp hpr
    by_cases hpk : p.1 = k
    · rw [if_pos hpk] at hmap
      rw [← hmap]
      exact Or.inl rfl
    · rw [if_neg hpk] at hmap
      rw [← hmap]
      exact Or.inr (List.mem_map.mpr ⟨p, hp, rfl⟩)
  · rw [if_neg hc] at hpr
    rcases List.mem_append.mp hpr with h | h
    · exact Or.inr (List.mem_map.mpr ⟨pr, h, rfl⟩)
    · simp only [List.mem_singleton] at h
      rw [h]
      exact Or.inl rfl

theorem foldl_upsert_keys (processed : List Str) (l : List InRow)
    (hl : ∀ r ∈ l, r.id ∉ processed) :
    ∀ m0 : List (Str × CaseData), (∀ pr ∈ m0, pr.1 ∉ processed) →
      ∀ pr ∈ l.foldl (fun mp r => upsertKV mp r.id (processCase r.question)) m0,
        pr.1 ∉ processed := by
  induction l with
  | nil => intro m0 hm0 pr hpr; exact hm0 pr hpr
  | cons r rs ih =>
    intro m0 hm0 pr hpr
    have hr := hl r (List.mem_cons_self r rs)
    have hrs : ∀ x ∈ rs, x.id ∉ processed := fun x hx => hl x (List.mem_cons_of_mem r hx)
    have hnext : ∀ x ∈ upsertKV m0 r.id (processCase r.question), x.1 ∉ processed := by
      intro x hx
      rcases upsertKV_key_sub m0 r.id (processCase r.question) x hx with h | h
      · rw [h]; exact hr
      · obtain ⟨p, hp, hfst⟩ := List.mem_map.mp h
        rw [← hfst]
        exact hm0 p hp
    exact ih hrs (upsertKV m0 r.id (processCase r.question)) hnext pr hpr

theorem phase2Map_keys_unprocessed (rows : List InRow) (processed : List Str) :
    ∀ pr ∈ phase2Map rows processed, pr.1 ∉ processed := by
  unfold phase2Map
  refine foldl_upsert_keys processed (unprocessedRows rows processed) ?_ [] ?_
  · intro r hr
    have := (List.mem_filter.mp hr).2
    simpa using this
  · intro pr hpr
    simp at hpr

/-- C3: re-running the solver over a checkpoint leaves every
previously recorded output row in place (the old results are a prefix
of the new ones), only grows processed_ids, and never recomputes a
checkpointed case — no phase2 rule computation and no escalation task
is created for an id already in processed_ids. -/
theorem C3_checkpoint_idempotent (rows : List InRow)
    (oracle : Str → Nat → Nat → ApiOutcome) (p : Progress) :
    p.results <+: (runSolver rows oracle p).results ∧
    (∀ id ∈ p.processed_ids, id ∈ (runSolver rows oracle p).processed_ids) ∧
    (∀ id ∈ p.processed_ids, ∀ pr ∈ phase2Map rows p.processed_ids, pr.1 ≠ id) ∧
    (∀ id ∈ p.processed_ids,
      ∀ t ∈ buildAiTasks rows p.processed_ids p.ai_results, t.qid ≠ id) := by
  refine ⟨?_, ?_, ?_, ?_⟩
  · exact finalize_keeps_results _ _ rows (p.processed_ids, p.results)
  · intro id hid
    exact finalize_processed_mono _ _ rows (p.processed_ids, p.results) id hid
  · intro id hid pr hpr heq
    exact phase2Map_keys_unprocessed rows p.processed_ids pr hpr (heq ▸ hid)
  · intro id hid t ht heq
    exact (buildAiTasks_spec rows p.processed_ids p.ai_results t ht).2.2 (heq ▸ hid)

/-- C3 witness: one already-processed standard row and one fresh
non-telecom row; the old output row survives as a prefix, the old id
stays processed, and neither the phase2 entry nor the escalation task
belongs to the processed id. -/
theorem C3_checkpoint_idempotent_witness :
    (⟨["a".data], [⟨"a_1".data, "r".data, "p".data, "p".data⟩], []⟩ : Progress).results <+:
      (runSolver
        [⟨"a".data, "Timestamp|Longitude|Latitude|GPS Speed (km/h)".data⟩,
         ⟨"b".data, "hello".data⟩]
        (fun _ _ _ => ApiOutcome.excOther)
        ⟨["a".data], [⟨"a_1".data, "r".data, "p".data, "p".data⟩], []⟩).results ∧
    ("a".data) ∈
      (runSolver
        [⟨"a".data, "Timestamp|Longitude|Latitude|GPS Speed (km/h)".data⟩,
         ⟨"b".data, "hello".data⟩]
        (fun _ _ _ => ApiOutcome.excOther)
        ⟨["a".data], [⟨"a_1".data, "r".data, "p".data, "p".data⟩], []⟩).processed_ids ∧
    (("b".data, processCase ("hello".data)) :
        Str × CaseData).1 ≠ "a".data ∧
    (⟨"b".data, "hello".data, defaultOptionList, ['1']⟩ : AiTask).qid ≠ "a".data := by
  refine ⟨?_, ?_, ?_, ?_⟩
  · exact (C3_checkpoint_idempotent
      [⟨"a".data, "Timestamp|Longitude|Latitude|GPS Speed (km/h)".data⟩,
       ⟨"b".data, "hello".data⟩]
      (fun _ _ _ => ApiOutcome.excOther)
      ⟨["a".data], [⟨"a_1".data, "r".data, "p".data, "p".data⟩], []⟩).1
  · exact (C3_checkpoint_idempotent
      [⟨"a".data, "Timestamp|Longitude|Latitude|GPS Speed (km/h)".data⟩,
       ⟨"b".data, "hello".data⟩]
      (fun _ _ _ => ApiOutcome.excOther)
      ⟨["a".data], [⟨"a_1".data, "r".data, "p".data, "p".data⟩], []⟩).2.1
      ("a".data) (by decide)
  · exact (C3_checkpoint_idempotent
      [⟨"a".data, "Timestamp|Longitude|Latitude|GPS Speed (km/h)".data⟩,
       ⟨"b".data, "hello".data⟩]
      (fun _ _ _ => ApiOutcome.excOther)
      ⟨["a".data], [⟨"a_1".data, "r".data, "p".data, "p".data⟩], []⟩).2.2.1
      ("a".data) (by decide)
      (("b".data, processCase ("hello".data)))
      (by with_unfolding_all decide)
  · exact (C3_checkpoint_idempotent
      [⟨"a".data, "Timestamp|Longitude|Latitude|GPS Speed (km/h)".data⟩,
       ⟨"b".data, "hello".data⟩]
      (fun _ _ _ => ApiOutcome.excOther)
      ⟨["a".data], [⟨"a_1".data, "r".data, "p".data, "p".data⟩], []⟩).2.2.2
      ("a".data) (by decide)
      (⟨"b".data, "hello".data, defaultOptionList, ['1']⟩ : AiTask)
      (by with_unfolding_all decide)

end Telco
